import Mathlib

/-!
Verification development for the bitbucket-to-github discussion migration
script (`migrate-discussions.py`).  The Python source is embedded shallowly:
pure functions become Lean functions, Python exceptions become an explicit
error type threaded through `Except`, the regex-based `re.sub` passes are
hand-compiled into deterministic scanners that follow the Python regex
engine's semantics (leftmost match, ordered alternation, greedy repetition)
for the concrete patterns appearing in the source, and the external
collaborators (Bitbucket export, GitHub import, commit map, dateutil) are
parameters, as are the static configuration tables of the `config` module.
-/

namespace Migration

/-- Python runtime errors that the migration script can raise. -/
inductive PyErr where
  | assertionError
  | typeError
  | keyError
  | unboundLocalError
  | nameError
  | runtimeError
  deriving DecidableEq, Repr

/-- Lookup in an insertion-ordered association list, i.e. Python `d[k]`
(`none` models a `KeyError` situation, to be handled by the caller). -/
def dictGet {κ α : Type} [BEq κ] (d : List (κ × α)) (k : κ) : Option α :=
  (d.find? (fun p => p.1 == k)).map (fun p => p.2)

/-- Python `k in d` membership test for a dict. -/
def dictMem {κ α : Type} [BEq κ] (d : List (κ × α)) (k : κ) : Bool :=
  (d.find? (fun p => p.1 == k)).isSome

/-- Modelled from the spec: the static configuration tables (the repository's
`config` module is not among the given source files; §3 "Identity Tables" and
§6 "Configuration surface" of the spec describe them as static, read-only
maps loaded once).  Python dicts are insertion-ordered, hence association
lists. -/
structure Config where
  KNOWN_REPO_MAPPING : List (String × String)
  KNOWN_ISSUES_COUNT_MAPPING : List (String × Nat)
  USER_MAPPING : List (String × String)
  OPEN_ISSUE_OR_PULL_REQUEST_STATES : List String
  STATE_MAPPING : List (String × Option String)
  PRIORITY_MAPPING : List (String × Option String)
  KIND_MAPPING : List (String × Option String)
  COMPONENT_MAPPING : List (String × Option String)

/-- The command-line arguments used by the content rewriter and the driver. -/
structure Args where
  bitbucket_repository : String
  github_repository : String
  skip_attachments : Bool

deriving instance DecidableEq for Except

/-- Python `str.split(sep)` for a one-character separator (the result is
never empty). -/
def splitOnChar (sep : Char) : List Char → List (List Char)
  | [] => [[]]
  | c :: cs =>
    let r := splitOnChar sep cs
    if c = sep then [] :: r
    else
      match r with
      | h :: t => (c :: h) :: t
      | [] => [[c]]

/-- `repo.split('/')[-1]` -/
def lastPathComponent (s : String) : String :=
  String.mk ((splitOnChar '/' s.data).getLastD [])

/-- Match a literal character sequence at the head of the input, returning
the rest of the input on success. -/
def dropLit : List Char → List Char → Option (List Char)
  | [], s => some s
  | p :: ps, c :: cs => if c = p then dropLit ps cs else none
  | _ :: _, [] => none

/-- Ordered regex alternation `(w1|w2|...)` over literal words with the rest
of the pattern as continuation `k`: the engine tries the words in order and
backtracks to the next word when the continuation fails. -/
def matchAltList {α : Type} (words : List String) (s : List Char)
    (k : List Char → Option α) : Option (String × α) :=
  match words with
  | [] => none
  | w :: ws =>
    match dropLit w.data s with
    | some rest =>
      match k rest with
      | some a => some (w, a)
      | none => matchAltList ws s k
    | none => matchAltList ws s k

/-- Optional ordered alternation `(w1|w2|...)?` with continuation: the words
are tried first (greedy), then the empty alternative (group unmatched,
Python group value `None`). -/
def matchAltOpt {α : Type} (words : List String) (s : List Char)
    (k : List Char → Option α) : Option (Option String × α) :=
  match matchAltList words s k with
  | some (w, a) => some (some w, a)
  | none => (k s).map (fun a => ((none : Option String), a))

/-- The character class `[^\s()\[\]{}]` used for the tail of explicit links
(ASCII whitespace as matched by Python `\s`). -/
def isUrlTailChar (c : Char) : Bool :=
  !(c = ' ' || c = '\t' || c = '\n' || c = '\r' || c = '\x0b' || c = '\x0c' ||
    c = '(' || c = ')' || c = '[' || c = ']' || c = '\x7b' || c = '\x7d')

/-- One pass of Python `re.sub` over the input: at each position try the
pattern; on a match emit the replacement and continue after the match,
otherwise emit the character and move one position right.  The fuel is the
input length; every step consumes at least one input character because none
of the source's patterns can match the empty string. -/
def subScan (try1 : List Char → Option (List Char × List Char)) :
    Nat → List Char → List Char
  | 0, s => s
  | _ + 1, [] => []
  | fuel + 1, c :: cs =>
    match try1 (c :: cs) with
    | some (repl, rest) => repl ++ subScan try1 fuel rest
    | none => c :: subScan try1 fuel cs

/-- `re.sub` for patterns whose replacement function can raise. -/
def subScanE (try1 : List Char → Option (Except PyErr (List Char) × List Char)) :
    Nat → List Char → Except PyErr (List Char)
  | 0, s => Except.ok s
  | _ + 1, [] => Except.ok []
  | fuel + 1, c :: cs =>
    match try1 (c :: cs) with
    | some (Except.ok repl, rest) => (subScanE try1 fuel rest).map (fun t => repl ++ t)
    | some (Except.error e, _) => Except.error e
    | none => (subScanE try1 fuel cs).map (fun t => c :: t)

/-- After the repository name in `EXPLICIT_ISSUE_LINK_RE`:
`/issues*/(\d+)[^\s()\[\]{}]*`.  Returns the digits of group 2 and the rest
of the input after the whole match. -/
def matchExplicitIssueTail (s : List Char) : Option (List Char × List Char) :=
  match dropLit ("/issue".data) s with
  | none => none
  | some s1 =>
    match s1.dropWhile (fun c => c = 's') with
    | '/' :: s3 =>
      match s3.takeWhile Char.isDigit, s3.dropWhile Char.isDigit with
      | [], _ => none
      | ds, s4 => some (ds, s4.dropWhile isUrlTailChar)
    | _ => none

/-- One attempted match of `EXPLICIT_ISSUE_LINK_RE` at the current position,
together with the replacement computed by `replace_issue_link`: a matched
repository that is in `KNOWN_REPO_MAPPING` (always the case, since the
alternation is built from its keys) is rewritten to a github issue link
carrying the unchanged issue number; otherwise the match is left unchanged. -/
def tryExplicitIssue (cfg : Config) (s : List Char) : Option (List Char × List Char) :=
  match dropLit ("https://bitbucket.org/".data) s with
  | none => none
  | some s1 =>
    match matchAltList (cfg.KNOWN_REPO_MAPPING.map (fun p => p.1)) s1 matchExplicitIssueTail with
    | none => none
    | some (brepo, (issue_nr, rest)) =>
      match dictGet cfg.KNOWN_REPO_MAPPING brepo with
      | none => some (s.take (s.length - rest.length), rest)
      | some grepo =>
        some (("https://github.com/" ++ grepo ++ "/issues/").data ++ issue_nr, rest)

/-- `replace_explicit_links_to_issues` -/
def replace_explicit_links_to_issues (cfg : Config) (body : String) : String :=
  String.mk (subScan (tryExplicitIssue cfg) body.data.length body.data)

/-- Python `int` of a digit string. -/
def parseNatDigits (ds : List Char) : Nat :=
  ds.foldl (fun a c => 10 * a + (c.toNat - ('0').toNat)) 0

/-- After the repository name in `EXPLICIT_PR_LINK_RE`:
`/pull-requests*/(\d+)[^\s()\[\]{}]*`. -/
def matchExplicitPrTail (s : List Char) : Option (List Char × List Char) :=
  match dropLit ("/pull-request".data) s with
  | none => none
  | some s1 =>
    match s1.dropWhile (fun c => c = 's') with
    | '/' :: s3 =>
      match s3.takeWhile Char.isDigit, s3.dropWhile Char.isDigit with
      | [], _ => none
      | ds, s4 => some (ds, s4.dropWhile isUrlTailChar)
    | _ => none

/-- One attempted match of `EXPLICIT_PR_LINK_RE` with the replacement of
`replace_pr_link`: the new number is `int(group(2)) + issues_count`. -/
def tryExplicitPr (cfg : Config) (s : List Char) : Option (List Char × List Char) :=
  match dropLit ("https://bitbucket.org/".data) s with
  | none => none
  | some s1 =>
    match matchAltList (cfg.KNOWN_REPO_MAPPING.map (fun p => p.1)) s1 matchExplicitPrTail with
    | none => none
    | some (brepo, (ds, rest)) =>
      match dictGet cfg.KNOWN_REPO_MAPPING brepo, dictGet cfg.KNOWN_ISSUES_COUNT_MAPPING brepo with
      | some grepo, some issues_count =>
        some (("https://github.com/" ++ grepo ++ "/pull/" ++
               toString (parseNatDigits ds + issues_count)).data, rest)
      | _, _ => some (s.take (s.length - rest.length), rest)

/-- `replace_explicit_links_to_prs` -/
def replace_explicit_links_to_prs (cfg : Config) (body : String) : String :=
  String.mk (subScan (tryExplicitPr cfg) body.data.length body.data)

/-- The first alternative `\[.*?\]` of the implicit-link patterns: a `[`,
a shortest run of non-newline characters (`.` does not match a newline), and
a `]`.  The match is replaced by itself (left unchanged). -/
def tryBracket (s : List Char) : Option (List Char × List Char) :=
  match s with
  | '[' :: rest =>
    let pre := rest.takeWhile (fun c => !(c = ']' || c = '\n'))
    match rest.dropWhile (fun c => !(c = ']' || c = '\n')) with
    | ']' :: rest2 => some ('[' :: (pre ++ [']']), rest2)
    | _ => none
  | _ => none

/-- The repository-name tokens of the implicit patterns:
`repo.split('/')[-1] + " "` for each key of `KNOWN_REPO_MAPPING`. -/
def repoNameTokens (cfg : Config) : List String :=
  cfg.KNOWN_REPO_MAPPING.map (fun p => lastPathComponent p.1 ++ " ")

/-- The loop in the implicit replacement callbacks: find the first configured
repository whose `split('/')[-1] + " "` equals the captured group (which is
`None`, modelled as `none`, when the optional group did not participate). -/
def findRepoByToken (mapping : List (String × String)) (repo_name : Option String) :
    Option (String × String) :=
  match repo_name with
  | none => none
  | some nm => mapping.find? (fun p => lastPathComponent p.1 ++ " " == nm)

/-- The tail `issue #(\d+)/i` of `IMPLICIT_ISSUE_LINK_RE`.  Note that the
`/i` is a literal part of the Python pattern (it is inside the string given
to `re.compile`), so the text must contain `/i` right after the number. -/
def matchImplicitIssueTail (s : List Char) : Option (List Char × List Char) :=
  match dropLit ("issue #".data) s with
  | none => none
  | some s1 =>
    match s1.takeWhile Char.isDigit with
    | [] => none
    | ds =>
      match dropLit ("/i".data) (s1.dropWhile Char.isDigit) with
      | some rest => some (ds, rest)
      | none => none

/-- One attempted match of `IMPLICIT_ISSUE_LINK_RE` with the replacement of
its `replace_issue_link` callback (bracketed text is returned unchanged;
an unknown or missing repository token defaults to `args.github_repository`). -/
def tryImplicitIssue (cfg : Config) (args : Args) (s : List Char) :
    Option (List Char × List Char) :=
  match tryBracket s with
  | some r => some r
  | none =>
    match matchAltOpt (repoNameTokens cfg) s matchImplicitIssueTail with
    | none => none
    | some (repo_name, (issue_nr, rest)) =>
      let grepo := match findRepoByToken cfg.KNOWN_REPO_MAPPING repo_name with
        | some p => p.2
        | none => args.github_repository
      some (("https://github.com/" ++ grepo ++ "/issues/").data ++ issue_nr, rest)

/-- `replace_implicit_links_to_issues` -/
def replace_implicit_links_to_issues (cfg : Config) (body : String) (args : Args) : String :=
  String.mk (subScan (tryImplicitIssue cfg args) body.data.length body.data)

/-- The tail `pull request #(\d+)/i` of `IMPLICIT_PR_LINK_RE` (again with a
literal `/i`). -/
def matchImplicitPrTail (s : List Char) : Option (List Char × List Char) :=
  match dropLit ("pull request #".data) s with
  | none => none
  | some s1 =>
    match s1.takeWhile Char.isDigit with
    | [] => none
    | ds =>
      match dropLit ("/i".data) (s1.dropWhile Char.isDigit) with
      | some rest => some (ds, rest)
      | none => none

/-- One attempted match of `IMPLICIT_PR_LINK_RE` with the replacement of its
callback.  When the repository (captured or the current one) is present in
`KNOWN_ISSUES_COUNT_MAPPING`, the callback computes
`gpr_number = bpr_nr + issues_count` where `bpr_nr = match.group(2)` is a
Python `str` and `issues_count` an `int`: that concatenation raises
`TypeError`.  When it is absent the match is returned unchanged. -/
def tryImplicitPr (cfg : Config) (args : Args) (s : List Char) :
    Option (Except PyErr (List Char) × List Char) :=
  match tryBracket s with
  | some (repl, rest) => some (Except.ok repl, rest)
  | none =>
    match matchAltOpt (repoNameTokens cfg) s matchImplicitPrTail with
    | none => none
    | some (repo_name, (_bpr_nr, rest)) =>
      let brepo := match findRepoByToken cfg.KNOWN_REPO_MAPPING repo_name with
        | some p => p.1
        | none => args.bitbucket_repository
      if dictMem cfg.KNOWN_ISSUES_COUNT_MAPPING brepo then
        some (Except.error PyErr.typeError, rest)
      else
        some (Except.ok (s.take (s.length - rest.length)), rest)

/-- `replace_implicit_links_to_prs` -/
def replace_implicit_links_to_prs (cfg : Config) (body : String) (args : Args) :
    Except PyErr String :=
  (subScanE (tryImplicitPr cfg args) body.data.length body.data).map String.mk

/-- Python `\w` (ASCII fragment). -/
def isWordChar (c : Char) : Bool := c.isAlphanum || c = '_'

/-- The first alternative `[a-zA-Z0-9_\-]+` of the mention group. -/
def isHandleChar (c : Char) : Bool := c.isAlphanum || c = '_' || c = '-'

/-- The braced alternative `{[a-zA-Z0-9_\-:]+}` of the mention group. -/
def isBracedChar (c : Char) : Bool := isHandleChar c || c = ':'

/-- The capture group of `MENTION_RE`: `[a-zA-Z0-9_\-]+|{[a-zA-Z0-9_\-:]+}`
(ordered alternation; the braces are part of the captured text).  Returns
the captured characters and the rest of the input. -/
def parseMentionHandle (s : List Char) : Option (List Char × List Char) :=
  match s.takeWhile isHandleChar with
  | [] =>
    match s with
    | '\x7b' :: s1 =>
      match s1.takeWhile isBracedChar with
      | [] => none
      | h2 =>
        match s1.dropWhile isBracedChar with
        | '\x7d' :: rest => some (('\x7b' :: h2) ++ ['\x7d'], rest)
        | _ => none
    | _ => none
  | h => some (h, s.dropWhile isHandleChar)

/-- `lookup_user`: every nickname, mapped or not, is returned with the
`ignore_` prefix (the mapped target when present, the original otherwise). -/
def lookup_user (cfg : Config) (buser_nickname : String) : String :=
  match dictGet cfg.USER_MAPPING buser_nickname with
  | none => "ignore_" ++ buser_nickname
  | some guser => "ignore_" ++ guser

/-- The zero-width prefix `(?:^|(?<=[^\w]))` of `MENTION_RE`: the current
position is the string start (`prev = none`) or preceded by a non-word
character. -/
def mentionBoundaryOk (prev : Option Char) : Bool :=
  match prev with
  | none => true
  | some p => !isWordChar p

/-- The `re.sub` scan for `MENTION_RE = (?:^|(?<=[^\w]))@(...)`: `prev` is
the character preceding the current position in the original string (`none`
at the start of the string), implementing the lookbehind.  The replacement
callback `replace_user` returns `'@' + lookup_user(group(1))`; its
`if guser is None` branch is unreachable because `lookup_user` always
returns a string. -/
def mentionScan (cfg : Config) : Nat → Option Char → List Char → List Char
  | 0, _, s => s
  | _ + 1, _, [] => []
  | fuel + 1, prev, c :: cs =>
    if c = '@' then
      if mentionBoundaryOk prev then
        match parseMentionHandle cs with
        | some (h, rest) =>
          ('@' :: (lookup_user cfg (String.mk h)).data) ++
            mentionScan cfg fuel (some (h.getLastD '@')) rest
        | none => c :: mentionScan cfg fuel (some c) cs
      else c :: mentionScan cfg fuel (some c) cs
    else c :: mentionScan cfg fuel (some c) cs

/-- `replace_links_to_users` -/
def replace_links_to_users (cfg : Config) (body : String) : String :=
  String.mk (mentionScan cfg body.data.length none body.data)

/-- `map_content`: the four link passes in order, then the mention pass.
The fourth pass can raise (see `tryImplicitPr`), so the composition is in
`Except`. -/
def map_content (cfg : Config) (args : Args) (content : String) : Except PyErr String :=
  let tmp1 := replace_explicit_links_to_issues cfg content
  let tmp2 := replace_implicit_links_to_issues cfg tmp1 args
  let tmp3 := replace_explicit_links_to_prs cfg tmp2
  (replace_implicit_links_to_prs cfg tmp3 args).map (fun t => replace_links_to_users cfg t)

/-- A Bitbucket user record (only the `nickname` field is read). -/
structure BUser where
  nickname : String
  deriving DecidableEq

/-- The `inline` sub-record of a pull-request comment: `path`, `from`, `to`
(the line fields can be `None`). -/
structure BInline where
  path : String
  fromLine : Option Nat
  toLine : Option Nat
  deriving DecidableEq

/-- A Bitbucket comment record as read by the script: `user` (`None`
possible), `created_on`, `content["raw"]` (`None` possible), optional
`inline` data, optional `parent` (its `id`), optional `deleted` flag. -/
structure BComment where
  user : Option BUser
  created_on : String
  content_raw : Option String
  inline : Option BInline
  parent : Option Nat
  deleted : Option Bool
  deriving DecidableEq

/-- One entry of `bchange["changes"]`: the `old` and `new` values (`none`
models a Python falsy value, rendered as `(none)`). -/
structure BChangeItem where
  old : Option String
  new : Option String
  deriving DecidableEq

/-- A Bitbucket issue-change record: `user`, `created_on` and the ordered
`changes` mapping. -/
structure BChange where
  user : Option BUser
  created_on : String
  changes : List (String × BChangeItem)
  deriving DecidableEq

/-- One element of a pull request's activity list: only entries carrying an
`approval` sub-record are used; comment/update activities are skipped. -/
inductive BActivity where
  | approval (date : String) (user : Option BUser)
  | other
  deriving DecidableEq

/-- The `source`/`destination` record of a pull request.  Each field models a
sub-record that can be `None`; when present only one field of it is read
(`repository["full_name"]`, `branch["name"]`, `commit["hash"]`), so the
sub-record is collapsed to that field. -/
structure BEndpoint where
  repository : Option String
  branch : Option String
  commit : Option String
  deriving DecidableEq

/-- A pull-request participant: `user` (`None` possible), `role`,
`approved`. -/
structure BParticipant where
  user : Option BUser
  role : String
  approved : Bool
  deriving DecidableEq

/-- A Bitbucket pull request as read by the script. -/
structure BPull where
  id : Nat
  title : String
  description : String
  created_on : String
  updated_on : String
  author : Option BUser
  participants : List BParticipant
  reviewers : List BUser
  source : BEndpoint
  destination : BEndpoint
  merge_commit : Option String
  state : String
  deriving DecidableEq

/-- A Bitbucket issue as read by the script (`content["raw"]`, the reporter
and assignee can be `None`; `component` is collapsed to its `name`). -/
structure BIssue where
  id : Nat
  title : String
  content_raw : String
  created_on : String
  updated_on : String
  reporter : Option BUser
  assignee : Option BUser
  state : String
  kind : String
  priority : String
  component : Option String
  deriving DecidableEq

/-- External collaborator: a created gist, of which only
`gist.files[name].raw_url` is read. -/
structure Gist where
  raw_url_of : String → String

/-- The data handed to the gist-creation call: description and ordered
file mapping. -/
structure GistData where
  description : String
  files : List (String × String)
  deriving DecidableEq

/-- External collaborator `BitbucketExport`: the fetched repository data.
The per-item getters are total functions (network/transport failures are
out of scope). -/
structure BExport where
  repo_full_name : String
  issues : List BIssue
  pulls : List BPull
  issue_attachments : Nat → List String
  issue_attachment_content : Nat → String → String
  issue_comments : Nat → List (Nat × BComment)
  issue_changes : Nat → List BChange
  pull_comments : Nat → List (Nat × BComment)
  pull_activity : Nat → List BActivity

/-- External collaborator `GithubImport`: the destination state read by the
run.  `existing_issues`/`existing_pulls` are the key sets of the
`get_issues()`/`get_pulls()` maps fetched before uploading;
`issues_count`/`pulls_count` are the values reported by
`get_issues_count()`/`get_pulls_count()` at the final check. -/
structure GithubImport where
  repo_full_name : String
  existing_issues : List Nat
  existing_pulls : List Nat
  issues_count : Nat
  pulls_count : Nat
  get_or_create_gist : GistData → Gist

/-- External collaborator `CommitMap`: branch-name translation (with an
optional source repository argument) and mercurial-to-git hash translation
(`none` = unresolved hash). -/
structure CommitMap where
  convert_branch_name : String → Option String → String
  convert_commit_hash : String → Option String

/-- External collaborator for `time_string_to_date_string`, which calls
`dateutil.parser.parse` and formats the result as `%Y-%m-%d %H:%M`. -/
structure DateParser where
  parse_to_minute : String → String

/-- `time_string_to_date_string` -/
def time_string_to_date_string (dp : DateParser) (timestring : String) : String :=
  dp.parse_to_minute timestring

/-- `map_bstate_to_gstate` (the Python function receives the issue/pull dict
and reads its `state` field, passed here directly). -/
def map_bstate_to_gstate (cfg : Config) (bstate : String) : String :=
  if cfg.OPEN_ISSUE_OR_PULL_REQUEST_STATES.contains bstate then "open" else "closed"

/-- `map_buser_to_guser` -/
def map_buser_to_guser (cfg : Config) (buser : Option BUser) : Option String :=
  buser.map (fun u => lookup_user cfg u.nickname)

/-- `map_brepo_to_grepo` -/
def map_brepo_to_grepo (cfg : Config) (brepo : String) : Option String :=
  dictGet cfg.KNOWN_REPO_MAPPING brepo

/-- Shared shape of the four label-mapping functions: a hit with a `None`
label, or a miss (which only prints a warning), gives no label. -/
def mapEnumToGlabels (table : List (String × Option String)) (v : String) : List String :=
  match dictGet table v with
  | some (some label) => [label]
  | some none => []
  | none => []

/-- `map_bstate_to_glabels` (receives the `state` field). -/
def map_bstate_to_glabels (cfg : Config) (bstate : String) : List String :=
  mapEnumToGlabels cfg.STATE_MAPPING bstate

/-- `map_bpriority_to_glabels` (receives the `priority` field). -/
def map_bpriority_to_glabels (cfg : Config) (bpriority : String) : List String :=
  mapEnumToGlabels cfg.PRIORITY_MAPPING bpriority

/-- `map_bkind_to_glabels` (receives the `kind` field). -/
def map_bkind_to_glabels (cfg : Config) (bkind : String) : List String :=
  mapEnumToGlabels cfg.KIND_MAPPING bkind

/-- `map_bcomponent_to_glabels` (receives the `component` field, collapsed
to its `name`). -/
def map_bcomponent_to_glabels (cfg : Config) (component : Option String) : List String :=
  match component with
  | none => []
  | some bcomponent => mapEnumToGlabels cfg.COMPONENT_MAPPING bcomponent

/-- Python `str.format` rendering of a possibly-`None` string. -/
def optStr : Option String → String
  | none => "None"
  | some s => s

/-- Python `str.format` rendering of a possibly-`None` line number. -/
def optNatStr : Option Nat → String
  | none => "None"
  | some n => toString n

/-- `convert_date`: `re.search` for `(\d\d\d\d-\d\d-\d\d)T(\d\d:\d\d:\d\d)`,
re-rendered as `{date}T{time}Z`; no match raises `RuntimeError`. -/
def expectChar (c : Char) : List Char → Option (List Char)
  | d :: rest => if d = c then some rest else none
  | [] => none

/-- Exactly `n` digit characters. -/
def digitsN : Nat → List Char → Option (List Char × List Char)
  | 0, s => some ([], s)
  | n + 1, c :: cs =>
    if c.isDigit then (digitsN n cs).map (fun p => (c :: p.1, p.2)) else none
  | _ + 1, [] => none

/-- The date pattern of `convert_date` anchored at the current position. -/
def matchDateAt (s : List Char) : Option (String × String) := do
  let (y, r1) ← digitsN 4 s
  let r2 ← expectChar '-' r1
  let (mo, r3) ← digitsN 2 r2
  let r4 ← expectChar '-' r3
  let (d, r5) ← digitsN 2 r4
  let r6 ← expectChar 'T' r5
  let (hh, r7) ← digitsN 2 r6
  let r8 ← expectChar ':' r7
  let (mi, r9) ← digitsN 2 r8
  let r10 ← expectChar ':' r9
  let (se, _) ← digitsN 2 r10
  pure (String.mk (y ++ '-' :: mo ++ '-' :: d), String.mk (hh ++ ':' :: mi ++ ':' :: se))

/-- `re.search`: leftmost position where the date pattern matches. -/
def searchDate : List Char → Option (String × String)
  | [] => none
  | c :: cs =>
    match matchDateAt (c :: cs) with
    | some r => some r
    | none => searchDate cs

/-- `convert_date` -/
def convert_date (bb_date : String) : Except PyErr String :=
  match searchDate bb_date.data with
  | some (d, t) => Except.ok (d ++ "T" ++ t ++ "Z")
  | none => Except.error PyErr.runtimeError

/-- `construct_gcomment_body`.  The `"> **@" + map_buser_to_guser(...)`
concatenation raises `TypeError` when the comment's user is `None`; a
`parent` id missing from `bcomments_by_id` raises `KeyError`. -/
def construct_gcomment_body (cfg : Config) (dp : DateParser) (args : Args)
    (bcomment : BComment) (bcomments_by_id : List (Nat × BComment)) :
    Except PyErr String :=
  let comment_created_on := time_string_to_date_string dp bcomment.created_on
  match map_buser_to_guser cfg bcomment.user with
  | none => Except.error PyErr.typeError
  | some guser =>
    let header := "> **@" ++ guser ++ "** commented on " ++ comment_created_on ++ "\n"
    let inline_part := match bcomment.inline with
      | none => ""
      | some inl =>
        match inl.fromLine, inl.toLine with
        | none, none => "> Inline comment on `" ++ inl.path ++ "`\n"
        | none, some to_line =>
          "> Inline comment on line " ++ toString to_line ++ " of `" ++ inl.path ++ "`\n"
        | some from_line, to_line =>
          "> Inline comment on lines " ++ toString from_line ++ ".." ++ optNatStr to_line ++
            " of `" ++ inl.path ++ "`\n"
    (match bcomment.parent with
      | none => Except.ok ""
      | some pid =>
        match dictGet bcomments_by_id pid with
        | none => Except.error PyErr.keyError
        | some parent_comment =>
          match parent_comment.content_raw with
          | none => Except.ok ""
          | some raw =>
            (map_content cfg args raw).map (fun t => "> " ++ t ++ "\n\n")).bind
      (fun parent_part =>
        (match bcomment.content_raw with
          | none => Except.ok ""
          | some raw => map_content cfg args raw).bind
          (fun body_part =>
            Except.ok (header ++ inline_part ++ "\n" ++ parent_part ++ body_part)))

/-- `construct_gissue_body`.  The reporter concatenation raises `TypeError`
on a `None` reporter; a missing gist renders an explicit missing-link
marker (and prints an error). -/
def construct_gissue_body (cfg : Config) (dp : DateParser) (args : Args)
    (bissue : BIssue) (battachments : List String)
    (attachment_gist_by_issue_id : List (Nat × Gist)) : Except PyErr String :=
  let created_on := time_string_to_date_string dp bissue.created_on
  let updated_on := time_string_to_date_string dp bissue.updated_on
  match map_buser_to_guser cfg bissue.reporter with
  | none => Except.error PyErr.typeError
  | some guser =>
    let header := "> Created by **@" ++ guser ++ "** on " ++ created_on ++ "\n" ++
      (if created_on ≠ updated_on then "> Last updated on " ++ updated_on ++ "\n" else "")
    let attach_part :=
      if battachments.isEmpty then ""
      else
        "\n---\n\nAttachments:\n" ++
          String.join (battachments.map (fun name =>
            match dictGet attachment_gist_by_issue_id bissue.id with
            | some attachments_gist =>
              "* [**`" ++ name ++ "`**](" ++ attachments_gist.raw_url_of name ++ ")\n"
            | none => "* **`" ++ name ++ "`** (missing link)\n"))
    (map_content cfg args bissue.content_raw).bind
      (fun content => Except.ok (header ++ "\n" ++ content ++ "\n" ++ attach_part))

/-- `construct_gpull_request_body`.  The local `source_ghash` is assigned
only in the else-branch of the source section; the destination section's
`if source_ghash is None` read raises `UnboundLocalError` when the
then-branch (source repository and commit both `None`) was taken.
Subscripting a `None` sub-record (`source["repository"]["full_name"]`,
`...["branch"]["name"]`, `...["commit"]["hash"]`) raises `TypeError`.
The `second Option` layer of the returned pair tracks whether
`source_ghash` was bound. -/
def construct_gpull_request_body (cfg : Config) (dp : DateParser) (cmap : CommitMap)
    (args : Args) (bexport : BExport) (bpull : BPull) : Except PyErr String :=
  let created_on := time_string_to_date_string dp bpull.created_on
  let updated_on := time_string_to_date_string dp bpull.updated_on
  let author_msg := match map_buser_to_guser cfg bpull.author with
    | none => ""
    | some guser => "by **@" ++ guser ++ "** "
  let header := ">  **Pull request** :twisted_rightwards_arrows: created " ++ author_msg ++
    "on " ++ created_on ++ "\n" ++
    (if created_on ≠ updated_on then "> Last updated on " ++ updated_on ++ "\n" else "")
  let participants_part :=
    if bpull.participants.isEmpty then ""
    else
      ">\n> Participants:\n>\n" ++
        String.join (bpull.participants.map (fun participant =>
          "> * **@" ++ optStr (map_buser_to_guser cfg participant.user) ++ "**" ++
            (if participant.role == "REVIEWER" then " (reviewer)" else "") ++
            (if participant.approved then " :heavy_check_mark:" else "") ++ "\n"))
  (if bpull.source.repository.isNone && bpull.source.commit.isNone then
      let source_brepo := bexport.repo_full_name
      match bpull.source.branch with
      | none => Except.error PyErr.typeError
      | some source_bbranch =>
        let source_grepo := map_brepo_to_grepo cfg source_brepo
        let source_gbranch := cmap.convert_branch_name source_bbranch none
        Except.ok ("> Source: branch [`" ++ source_gbranch ++ "`](https://github.com/" ++
          optStr source_grepo ++ "/tree/" ++ source_gbranch ++ ")\n",
          (none : Option (Option String)))
    else
      match bpull.source.repository with
      | none => Except.error PyErr.typeError
      | some source_brepo =>
        match bpull.source.branch with
        | none => Except.error PyErr.typeError
        | some source_bbranch =>
          match bpull.source.commit with
          | none => Except.error PyErr.typeError
          | some source_bhash =>
            let source_grepo := map_brepo_to_grepo cfg source_brepo
            let source_gbranch := cmap.convert_branch_name source_bbranch (some source_brepo)
            let source_ghash := cmap.convert_commit_hash source_bhash
            Except.ok ("> Source: branch [`" ++ source_gbranch ++ "`](https://github.com/" ++
              optStr source_grepo ++ "/tree/" ++ source_gbranch ++ "), [" ++
              optStr source_ghash ++ "](https://github.com/" ++ optStr source_grepo ++
              "/commit/" ++ optStr source_ghash ++ ")\n", some source_ghash)).bind
    (fun src =>
      match bpull.destination.repository with
      | none => Except.error PyErr.typeError
      | some destination_brepo =>
        match bpull.destination.branch with
        | none => Except.error PyErr.typeError
        | some destination_bbranch =>
          match bpull.destination.commit with
          | none => Except.error PyErr.typeError
          | some destination_bhash =>
            let destination_grepo := map_brepo_to_grepo cfg destination_brepo
            let destination_gbranch :=
              cmap.convert_branch_name destination_bbranch (some destination_brepo)
            let destination_ghash := cmap.convert_commit_hash destination_bhash
            match src.2 with
            | none => Except.error PyErr.unboundLocalError
            | some _ =>
              let destination_part := "> Destination: branch [`" ++ destination_gbranch ++
                "`](https://github.com/" ++ optStr destination_grepo ++ "/tree/" ++
                destination_gbranch ++ "), [" ++ optStr destination_ghash ++
                "](https://github.com/" ++ optStr destination_grepo ++ "/commit/" ++
                optStr destination_ghash ++ ")\n"
              let merge_part := match bpull.merge_commit with
                | none => ""
                | some merge_bhash =>
                  let merge_grepo := map_brepo_to_grepo cfg bexport.repo_full_name
                  let merge_ghash := cmap.convert_commit_hash merge_bhash
                  "> Marge commit: [" ++ optStr merge_ghash ++ "](https://github.com/" ++
                    optStr merge_grepo ++ "/commit/" ++ optStr merge_ghash ++ ")\n"
              let state_part := ">\n> State: **`" ++ bpull.state ++ "`**\n"
              (map_content cfg args bpull.description).bind
                (fun content =>
                  Except.ok (header ++ participants_part ++ ">\n" ++ src.1 ++
                    destination_part ++ merge_part ++ state_part ++ "\n" ++ content ++ "\n")))

/-- The truthy-or-`(none)` rendering of a change value. -/
def renderChangeVal : Option String → String
  | none => "(none)"
  | some s => if s = "" then "(none)" else s

/-- `construct_gcomment_body_for_change` (the blacklisted keys yield no
line; an all-blacklisted change yields the empty body). -/
def construct_gcomment_body_for_change (cfg : Config) (dp : DateParser)
    (bchange : BChange) : String :=
  let created_on := time_string_to_date_string dp bchange.created_on
  let blacklist : List String := ["content", "title", "assignee_account_id"]
  String.join (bchange.changes.map (fun kv =>
    if blacklist.contains kv.1 then ""
    else
      "> **@" ++ optStr (map_buser_to_guser cfg bchange.user) ++ "** changed `" ++ kv.1 ++
        "` from `" ++ renderChangeVal kv.2.old ++ "` to `" ++ renderChangeVal kv.2.new ++
        "` on " ++ created_on ++ "\n"))

/-- `construct_gcomment_body_for_approval_activity` -/
def construct_gcomment_body_for_approval_activity (cfg : Config) (dp : DateParser)
    (date : String) (user : Option BUser) : String :=
  "> **@" ++ optStr (map_buser_to_guser cfg user) ++
    "** approved :heavy_check_mark: the pull request on " ++ time_string_to_date_string dp date

/-- `construct_gissue_title_for_pull` -/
def construct_gissue_title_for_pull (bpull : BPull) : String :=
  "[PR] " ++ bpull.title

/-- A destination comment. -/
structure GComment where
  body : String
  created_at : String
  deriving DecidableEq

/-- Stable insertion by `created_at` (equal keys keep their relative
order), modelling Python's stable `list.sort(key=...)`. -/
def insertByCreatedAt (c : GComment) : List GComment → List GComment
  | [] => [c]
  | d :: ds =>
    if d.created_at ≤ c.created_at then d :: insertByCreatedAt c ds else c :: d :: ds

/-- `comments.sort(key=lambda x: x["created_at"])` -/
def sortByCreatedAt (l : List GComment) : List GComment :=
  l.foldl (fun acc c => insertByCreatedAt c acc) []

/-- The loop of `construct_gissue_comments`: empty (raw `None`) and deleted
comments are skipped; the others are rendered and dated. -/
def construct_gissue_comments_loop (cfg : Config) (dp : DateParser) (args : Args)
    (bcomments : List (Nat × BComment)) :
    List (Nat × BComment) → Except PyErr (List GComment)
  | [] => Except.ok []
  | (_, bcomment) :: rest =>
    if bcomment.content_raw.isNone then
      construct_gissue_comments_loop cfg dp args bcomments rest
    else if bcomment.deleted.getD false then
      construct_gissue_comments_loop cfg dp args bcomments rest
    else
      (construct_gcomment_body cfg dp args bcomment bcomments).bind (fun body =>
        (convert_date bcomment.created_on).bind (fun created =>
          (construct_gissue_comments_loop cfg dp args bcomments rest).bind (fun tail =>
            Except.ok ({ body := body, created_at := created } :: tail))))

/-- `construct_gissue_comments` -/
def construct_gissue_comments (cfg : Config) (dp : DateParser) (args : Args)
    (bcomments : List (Nat × BComment)) : Except PyErr (List GComment) :=
  (construct_gissue_comments_loop cfg dp args bcomments bcomments).map sortByCreatedAt

/-- `construct_gissue_comments_for_changes` -/
def construct_gissue_comments_for_changes (cfg : Config) (dp : DateParser) :
    List BChange → Except PyErr (List GComment)
  | [] => Except.ok []
  | bchange :: rest =>
    let body := construct_gcomment_body_for_change cfg dp bchange
    if body = "" then construct_gissue_comments_for_changes cfg dp rest
    else
      (convert_date bchange.created_on).bind (fun created =>
        (construct_gissue_comments_for_changes cfg dp rest).bind (fun tail =>
          Except.ok ({ body := body, created_at := created } :: tail)))

/-- `construct_gissue_comments_for_activity` -/
def construct_gissue_comments_for_activity (cfg : Config) (dp : DateParser) :
    List BActivity → Except PyErr (List GComment)
  | [] => Except.ok []
  | BActivity.other :: rest => construct_gissue_comments_for_activity cfg dp rest
  | BActivity.approval date user :: rest =>
    let body := construct_gcomment_body_for_approval_activity cfg dp date user
    (convert_date date).bind (fun created =>
      (construct_gissue_comments_for_activity cfg dp rest).bind (fun tail =>
        Except.ok ({ body := body, created_at := created } :: tail)))

/-- `construct_gist_description_for_issue_attachments` -/
def construct_gist_description_for_issue_attachments (bissue : BIssue)
    (repo_full_name : String) : String :=
  "Attachments for issue #" ++ toString bissue.id ++ " of bitbucket repo " ++ repo_full_name

/-- `construct_gist_from_bissue_attachments` (returns `None` for an issue
without attachments; the README entry is first). -/
def construct_gist_from_bissue_attachments (bexport : BExport) (bissue : BIssue) :
    Option GistData :=
  let battachments := bexport.issue_attachments bissue.id
  if battachments.isEmpty then none
  else
    let gist_description := construct_gist_description_for_issue_attachments bissue bexport.repo_full_name
    some { description := gist_description,
           files := ("# README.md", gist_description) ::
             battachments.map (fun name => (name, bexport.issue_attachment_content bissue.id name)) }

/-- The destination issue payload built by `construct_gissue_from_bissue`. -/
structure GIssueData where
  title : String
  body : String
  created_at : String
  updated_at : String
  assignee : Option String
  closed : Bool
  labels : List String
  comments : List GComment

/-- The destination pull payload built by the open-pull branch of
`construct_gissue_or_gpull_from_bpull`. -/
structure GPullData where
  title : String
  body : String
  assignees : List (Option String)
  closed : Bool
  labels : List String
  base : String
  head : String
  comments : List GComment

/-- The tagged `{"type": ..., "data": ...}` record appended to
`issues_and_pulls` (the `type` strings `"issue"`/`"pull"` become
constructors, so the driver's unknown-type error branch is unrepresentable). -/
inductive TypedItem where
  | issue (data : GIssueData)
  | pull (data : GPullData)

/-- The `type` tag of a prepared item. -/
inductive ItemKind where
  | issue
  | pull
  deriving DecidableEq

/-- The tag of a `TypedItem`. -/
def TypedItem.kind : TypedItem → ItemKind
  | TypedItem.issue _ => ItemKind.issue
  | TypedItem.pull _ => ItemKind.pull

/-- `construct_gissue_from_bissue` (`list(set(labels))` is modelled by
`dedup`; Python's set iteration order is unspecified anyway). -/
def construct_gissue_from_bissue (cfg : Config) (dp : DateParser) (args : Args)
    (bexport : BExport) (attachment_gist_by_issue_id : List (Nat × Gist))
    (bissue : BIssue) : Except PyErr GIssueData :=
  let battachments := bexport.issue_attachments bissue.id
  let bcomments := bexport.issue_comments bissue.id
  let bchanges := bexport.issue_changes bissue.id
  (construct_gissue_body cfg dp args bissue battachments attachment_gist_by_issue_id).bind
    (fun issue_body =>
      (construct_gissue_comments cfg dp args bcomments).bind (fun cs1 =>
        (construct_gissue_comments_for_changes cfg dp bchanges).bind (fun cs2 =>
          let comments := sortByCreatedAt (cs1 ++ cs2)
          let labels := map_bkind_to_glabels cfg bissue.kind ++
            map_bstate_to_glabels cfg bissue.state ++
            map_bpriority_to_glabels cfg bissue.priority ++
            map_bcomponent_to_glabels cfg bissue.component
          (convert_date bissue.created_on).bind (fun created =>
            (convert_date bissue.updated_on).bind (fun updated =>
              Except.ok { title := bissue.title, body := issue_body, created_at := created,
                          updated_at := updated,
                          assignee := map_buser_to_guser cfg bissue.assignee,
                          closed := map_bstate_to_gstate cfg bissue.state == "closed",
                          labels := labels.dedup, comments := comments })))))

/-- `construct_gissue_or_gpull_from_bpull`: a closed pull request becomes a
destination issue (with dates), an open one a destination pull request
(base/head are `TODO` placeholders). -/
def construct_gissue_or_gpull_from_bpull (cfg : Config) (dp : DateParser)
    (cmap : CommitMap) (args : Args) (bexport : BExport) (bpull : BPull) :
    Except PyErr TypedItem :=
  let bcomments := bexport.pull_comments bpull.id
  let bactivity := bexport.pull_activity bpull.id
  (construct_gpull_request_body cfg dp cmap args bexport bpull).bind (fun issue_body =>
    (construct_gissue_comments cfg dp args bcomments).bind (fun cs1 =>
      (construct_gissue_comments_for_activity cfg dp bactivity).bind (fun cs2 =>
        let comments := sortByCreatedAt (cs1 ++ cs2)
        let labels := "pull request" :: map_bstate_to_glabels cfg bpull.state
        let is_closed := map_bstate_to_gstate cfg bpull.state == "closed"
        if is_closed then
          (convert_date bpull.created_on).bind (fun created =>
            (convert_date bpull.updated_on).bind (fun updated =>
              Except.ok (TypedItem.issue
                { title := construct_gissue_title_for_pull bpull, body := issue_body,
                  created_at := created, updated_at := updated,
                  assignee := map_buser_to_guser cfg bpull.author, closed := is_closed,
                  labels := labels.dedup, comments := comments })))
        else
          Except.ok (TypedItem.pull
            { title := construct_gissue_title_for_pull bpull, body := issue_body,
              assignees := [map_buser_to_guser cfg bpull.author], closed := is_closed,
              labels := labels.dedup, base := "TODO", head := "TODO",
              comments := comments }))))

/-- The attachment-migration phase of `bitbucket_to_github`: for each issue
with attachments, a gist is created (or fetched) via the external client;
the phase returns the `attachment_gist_by_issue_id` map and, as the
observable destination writes, the list of gist payloads sent. -/
def attachments_phase (bexport : BExport) (gimport : GithubImport) (args : Args) :
    List (Nat × Gist) × List GistData :=
  if args.skip_attachments then ([], [])
  else
    bexport.issues.foldl (fun acc bissue =>
      let battachments := bexport.issue_attachments bissue.id
      if battachments.isEmpty then acc
      else
        match construct_gist_from_bissue_attachments bexport bissue with
        | none => acc
        | some gist_data =>
          (acc.1 ++ [(bissue.id, gimport.get_or_create_gist gist_data)],
            acc.2 ++ [gist_data]))
      ([], [])

/-- The issue-preparation loop of `bitbucket_to_github`. -/
def prepare_issues (cfg : Config) (dp : DateParser) (args : Args) (bexport : BExport)
    (gmap : List (Nat × Gist)) : List BIssue → Except PyErr (List TypedItem)
  | [] => Except.ok []
  | bissue :: rest =>
    (construct_gissue_from_bissue cfg dp args bexport gmap bissue).bind (fun gissue =>
      (prepare_issues cfg dp args bexport gmap rest).bind (fun tail =>
        Except.ok (TypedItem.issue gissue :: tail)))

/-- The pull-request-preparation loop of `bitbucket_to_github`. -/
def prepare_pulls (cfg : Config) (dp : DateParser) (cmap : CommitMap) (args : Args)
    (bexport : BExport) : List BPull → Except PyErr (List TypedItem)
  | [] => Except.ok []
  | bpull :: rest =>
    (construct_gissue_or_gpull_from_bpull cfg dp cmap args bexport bpull).bind (fun item =>
      (prepare_pulls cfg dp cmap args bexport rest).bind (fun tail =>
        Except.ok (item :: tail)))

/-- The whole preparation phase: `issues_and_pulls` is all issues in fetched
order followed by all pull requests in fetched order. -/
def prepare_items (cfg : Config) (dp : DateParser) (cmap : CommitMap) (args : Args)
    (bexport : BExport) (gmap : List (Nat × Gist)) : Except PyErr (List TypedItem) :=
  (prepare_issues cfg dp args bexport gmap bexport.issues).bind (fun li =>
    (prepare_pulls cfg dp cmap args bexport bexport.pulls).bind (fun lp =>
      Except.ok (li ++ lp)))

/-- Create versus update, as decided by the upload loop. -/
inductive ActionKind where
  | create
  | update
  deriving DecidableEq

/-- One destination call of the upload loop: the unified number
(`index + 1`), the item type and whether an update or a create was issued. -/
structure UploadAction where
  number : Nat
  kind : ItemKind
  action : ActionKind
  deriving DecidableEq

/-- The decision for one item at a given unified number: an issue is updated
iff its number is a key of the `get_issues()` map, a pull iff its number is
a key of the `get_pulls()` map; otherwise it is created. -/
def mkUploadAction (gimport : GithubImport) (number : Nat) (item : TypedItem) : UploadAction :=
  match item with
  | TypedItem.issue _ =>
    { number := number, kind := ItemKind.issue,
      action := if gimport.existing_issues.contains number then ActionKind.update
                else ActionKind.create }
  | TypedItem.pull _ =>
    { number := number, kind := ItemKind.pull,
      action := if gimport.existing_pulls.contains number then ActionKind.update
                else ActionKind.create }

/-- The upload loop `for index, issue_or_pull in enumerate(issues_and_pulls)`
with `number = index + 1`. -/
def upload_actions (gimport : GithubImport) : Nat → List TypedItem → List UploadAction
  | _, [] => []
  | index, item :: rest =>
    mkUploadAction gimport (index + 1) item :: upload_actions gimport (index + 1) rest

/-- The final count check of `bitbucket_to_github`: `True` iff the error
message about a wrong destination count is printed. -/
def final_count_error (bexport : BExport) (gimport : GithubImport) : Bool :=
  bexport.issues.length + bexport.pulls.length != gimport.issues_count + gimport.pulls_count

/-- The observable outcome of a completed `bitbucket_to_github` run: the
gist payloads written by the attachment phase, the create/update calls of
the upload loop, and whether the final count check reported an error
(reported only; never raised). -/
structure RunResult where
  gists_created : List GistData
  uploads : List UploadAction
  count_error : Bool
  deriving DecidableEq

/-- `bitbucket_to_github`: the two `assert` statements on
`KNOWN_ISSUES_COUNT_MAPPING` come before the attachment migration, the
preparation loops and the upload loop; a failure of either aborts the run
with `AssertionError` before any destination write. -/
def bitbucket_to_github (cfg : Config) (dp : DateParser) (bexport : BExport)
    (gimport : GithubImport) (cmap : CommitMap) (args : Args) : Except PyErr RunResult :=
  let brepo_full_name := bexport.repo_full_name
  match dictGet cfg.KNOWN_ISSUES_COUNT_MAPPING brepo_full_name with
  | none => Except.error PyErr.assertionError
  | some cnt =>
    if cnt = bexport.issues.length then
      let phase := attachments_phase bexport gimport args
      match prepare_items cfg dp cmap args bexport phase.1 with
      | Except.error e => Except.error e
      | Except.ok items =>
        Except.ok { gists_created := phase.2, uploads := upload_actions gimport 0 items,
                    count_error := final_count_error bexport gimport }
    else Except.error PyErr.assertionError

/-- Python `set.add` on a nickname set, modelled as a duplicate-free list in
first-insertion order (CPython's set iteration order is unspecified; only
membership matters for the final warning loop). -/
def addNick (s : List String) (n : String) : List String :=
  if s.contains n then s else s ++ [n]

/-- `for bcomment in ...get_issue_comments(id).values(): add(nickname)`;
a `None` comment user makes `bcomment["user"]["nickname"]` raise
`TypeError`. -/
def addCommentNicks : List (Nat × BComment) → List String → Option (List String)
  | [], nicks => some nicks
  | (_, c) :: rest, nicks =>
    match c.user with
    | none => none
    | some u => addCommentNicks rest (addNick nicks u.nickname)

/-- `for bparticipant in bpull["participants"]: add(...["user"]["nickname"])`;
a `None` participant user raises `TypeError`. -/
def addParticipantNicks : List BParticipant → List String → Option (List String)
  | [], nicks => some nicks
  | p :: rest, nicks =>
    match p.user with
    | none => none
    | some u => addParticipantNicks rest (addNick nicks u.nickname)

/-- The issue loop of `check`: progress prints, assignee and comment-author
nicknames (third component: the raise, if any). -/
def check_issues_loop (bexport : BExport) :
    List BIssue → List String → List String → List String × List String × Option PyErr
  | [], msgs, nicks => (msgs, nicks, none)
  | bissue :: rest, msgs, nicks =>
    let msgs1 := msgs ++ (if bissue.id % 10 == 0 then
      ["Checking bitbucket issue #" ++ toString bissue.id ++ "..."] else [])
    let nicks1 := match bissue.assignee with
      | some a => addNick nicks a.nickname
      | none => nicks
    match addCommentNicks (bexport.issue_comments bissue.id) nicks1 with
    | none => (msgs1, nicks1, some PyErr.typeError)
    | some nicks2 => check_issues_loop bexport rest msgs1 nicks2

/-- The branch/commit consistency messages for one pull request (the Python
prints render the raw sub-dicts; here their collapsed fields are
rendered). -/
def branchInfoMsgs (bpull : BPull) : List String :=
  (if bpull.source.repository.isNone != bpull.source.commit.isNone then
    ["Info: source repository is \x27" ++ optStr bpull.source.repository ++
      "\x27, but commit is \x27" ++ optStr bpull.source.commit ++ "\x27"] else []) ++
  (if bpull.destination.repository.isNone != bpull.destination.commit.isNone then
    ["Info: destination repository is \x27" ++ optStr bpull.destination.repository ++
      "\x27, but commit is \x27" ++ optStr bpull.destination.commit ++ "\x27"] else []) ++
  (if bpull.destination.repository.isNone then ["Info: destination repository is None"] else []) ++
  (if bpull.source.branch.isNone then ["Info: source branch is None"] else []) ++
  (if bpull.destination.branch.isNone then ["Info: destination branch is None"] else [])

/-- The pull loop of `check`.  Line 735 of the source reads the loop
variable `bissue_id` of the preceding issue loop (not the pull's id): its
value is the last issue's id, and a `NameError` is raised when there was no
issue at all. -/
def check_pulls_loop (bexport : BExport) (last_bissue_id : Option Nat) :
    List BPull → List String → List String → List String × List String × Option PyErr
  | [], msgs, nicks => (msgs, nicks, none)
  | bpull :: rest, msgs, nicks =>
    let msgs1 := msgs ++ (if bpull.id % 10 == 0 then
      ["Checking bitbucket pull request #" ++ toString bpull.id ++ "..."] else [])
    let nicks1 := match bpull.author with
      | some a => addNick nicks a.nickname
      | none => nicks
    match addParticipantNicks bpull.participants nicks1 with
    | none => (msgs1, nicks1, some PyErr.typeError)
    | some nicks2 =>
      let nicks3 := bpull.reviewers.foldl (fun acc r => addNick acc r.nickname) nicks2
      match last_bissue_id with
      | none => (msgs1, nicks3, some PyErr.nameError)
      | some bissue_id =>
        match addCommentNicks (bexport.issue_comments bissue_id) nicks3 with
        | none => (msgs1, nicks3, some PyErr.typeError)
        | some nicks4 =>
          check_pulls_loop bexport last_bissue_id rest (msgs1 ++ branchInfoMsgs bpull) nicks4

/-- `check`: the diagnostic (no-mutation) mode.  Returns the messages
printed before control left the function, and the raise, if any.  Note the
two unguarded subscripts `config.KNOWN_ISSUES_COUNT_MAPPING[brepo_full_name]`
and `config.KNOWN_REPO_MAPPING[brepo_full_name]` right after the guarded
`not in` reports: with a repository missing from either map, the
corresponding error is printed and then a `KeyError` is raised. -/
def check (cfg : Config) (bexport : BExport) (gimport : GithubImport) :
    List String × Option PyErr :=
  let bissues := bexport.issues
  let bpulls := bexport.pulls
  let gissues_count := gimport.issues_count
  let gpulls_count := gimport.pulls_count
  let msgs0 : List String :=
    ["Number of bitbucket issues: " ++ toString bissues.length,
     "Number of bitbucket pull requests: " ++ toString bpulls.length,
     "Number of github issues: " ++ toString gissues_count,
     "Number of github pull requests: " ++ toString gpulls_count]
  let msgs1 := msgs0 ++ (if gissues_count ≠ 0 then
    ["Warning: the github repository has existing issues, so the migration can\x27t preserve the creation date of issues and pull requests."]
    else [])
  let msgs2 := msgs1 ++ (if gissues_count + gpulls_count > bissues.length + bpulls.length then
    ["Error: the github repository has " ++ toString gissues_count ++
      " issues and pull requests, but the maximum should be " ++
      toString (bissues.length + bpulls.length) ++
      " because the bitbucket repository only has " ++ toString bissues.length ++
      " issues and " ++ toString bpulls.length ++ " pull requests."]
    else [])
  let brepo_full_name := bexport.repo_full_name
  let grepo_full_name := gimport.repo_full_name
  let msgs3 := msgs2 ++ (if dictMem cfg.KNOWN_ISSUES_COUNT_MAPPING brepo_full_name then []
    else ["Error: bitbucket repository \x27" ++ brepo_full_name ++
      "\x27 is not configured in KNOWN_ISSUES_COUNT_MAPPING."])
  let msgs4 := msgs3 ++ (if dictMem cfg.KNOWN_REPO_MAPPING brepo_full_name then []
    else ["Error: bitbucket repository \x27" ++ brepo_full_name ++
      "\x27 is not configured in KNOWN_REPO_MAPPING."])
  match dictGet cfg.KNOWN_ISSUES_COUNT_MAPPING brepo_full_name with
  | none => (msgs4, some PyErr.keyError)
  | some cnt =>
    let msgs5 := msgs4 ++ (if cnt ≠ bissues.length then
      ["Error: bitbucket repository \x27" ++ brepo_full_name ++
        "\x27 in KNOWN_ISSUES_COUNT_MAPPING maps to \x27" ++ toString cnt ++
        "\x27, but the actual number of issues is \x27" ++ toString bissues.length ++ "\x27."]
      else [])
    match dictGet cfg.KNOWN_REPO_MAPPING brepo_full_name with
    | none => (msgs5, some PyErr.keyError)
    | some grepo =>
      let msgs6 := msgs5 ++ (if grepo ≠ grepo_full_name then
        ["Error: bitbucket repository \x27" ++ brepo_full_name ++
          "\x27 in KNOWN_REPO_MAPPING maps to \x27" ++ grepo ++
          "\x27, but the github repository passed by command line is \x27" ++
          grepo_full_name ++ "\x27."]
        else [])
      match check_issues_loop bexport bissues msgs6 [] with
      | (msgsI, _, some e) => (msgsI, some e)
      | (msgsI, nicks, none) =>
        let last_bissue_id := (bissues.getLast?).map (fun b => b.id)
        match check_pulls_loop bexport last_bissue_id bpulls msgsI nicks with
        | (msgsP, _, some e) => (msgsP, some e)
        | (msgsP, nicks2, none) =>
          let warn := (nicks2.filter (fun n => !dictMem cfg.USER_MAPPING n)).map (fun n =>
            "Warning: bitbucket user \x27" ++ n ++ "\x27 is not configured in USER_MAPPING.")
          (msgsP ++ warn, none)

/-! Concrete fixtures used to evaluate the model on closed inputs. -/

/-- A sample configuration: two known repositories, five configured issues
for the current one. -/
def cfgA : Config :=
  { KNOWN_REPO_MAPPING := [("bb-org/xrepo", "gh-org/xrepo"), ("bb-org/current", "gh-org/current")],
    KNOWN_ISSUES_COUNT_MAPPING := [("bb-org/xrepo", 10), ("bb-org/current", 5)],
    USER_MAPPING := [("bob", "brobot")],
    OPEN_ISSUE_OR_PULL_REQUEST_STATES := ["new", "open"],
    STATE_MAPPING := [("resolved", some "resolved")],
    PRIORITY_MAPPING := [("minor", none)],
    KIND_MAPPING := [("bug", some "bug")],
    COMPONENT_MAPPING := [("ui", some "ui")] }

/-- The command-line pair selecting the current repositories. -/
def argsA : Args :=
  { bitbucket_repository := "bb-org/current",
    github_repository := "gh-org/current",
    skip_attachments := false }

/-- `cfgA` with the user `alice` mapped to `abot`. -/
def cfgMapped : Config :=
  { cfgA with USER_MAPPING := [("alice", "abot")] }

/-- `cfgA` with the configured issue count of the current repository equal to
the live count of the fixture export (one issue). -/
def cfgRun : Config :=
  { cfgA with KNOWN_ISSUES_COUNT_MAPPING := [("bb-org/xrepo", 10), ("bb-org/current", 1)] }

/-- A constant external date parser. -/
def dpA : DateParser := { parse_to_minute := fun _ => "2020-01-02 03:04" }

/-- An identity-like external commit map. -/
def cmapA : CommitMap :=
  { convert_branch_name := fun b _ => b, convert_commit_hash := fun h => some h }

/-- A closed sample issue. -/
def bissueA : BIssue :=
  { id := 1, title := "issue title", content_raw := "", created_on := "2020-01-02T03:04:05+00:00",
    updated_on := "2020-01-02T03:04:05+00:00", reporter := some { nickname := "alice" },
    assignee := none, state := "resolved", kind := "bug", priority := "minor", component := none }

/-- An open sample pull request with full source/destination data. -/
def bpullA : BPull :=
  { id := 1, title := "pull title", description := "", created_on := "2020-01-03T03:04:05+00:00",
    updated_on := "2020-01-03T03:04:05+00:00", author := some { nickname := "bob" },
    participants := [], reviewers := [],
    source := { repository := some "bb-org/current", branch := some "feature",
                commit := some "abc1" },
    destination := { repository := some "bb-org/current", branch := some "master",
                     commit := some "def2" },
    merge_commit := none, state := "open" }

/-- `bpullA` with the source repository and commit both `None` (the shape
produced by Bitbucket for a deleted source fork). -/
def bpull10 : BPull :=
  { bpullA with source := { repository := none, branch := some "feature", commit := none } }

/-- A fixture export: one issue, one pull request, no comments/attachments. -/
def bexportA : BExport :=
  { repo_full_name := "bb-org/current", issues := [bissueA], pulls := [bpullA],
    issue_attachments := fun _ => [], issue_attachment_content := fun _ _ => "",
    issue_comments := fun _ => [], issue_changes := fun _ => [],
    pull_comments := fun _ => [], pull_activity := fun _ => [] }

/-- An empty destination whose final counts match the source (1 + 1). -/
def gimportA : GithubImport :=
  { repo_full_name := "gh-org/current", existing_issues := [], existing_pulls := [],
    issues_count := 1, pulls_count := 1,
    get_or_create_gist := fun _ => { raw_url_of := fun _ => "https://gist.example/raw" } }

/-- A destination already populated at the run's unified numbers. -/
def gimportPop : GithubImport :=
  { gimportA with existing_issues := [1], existing_pulls := [2] }

/-- A destination whose final counts do not match the source. -/
def gimportDrift : GithubImport :=
  { gimportA with issues_count := 5, pulls_count := 0 }

/-- The outcome of the fixture run against the empty destination. -/
def runA : RunResult :=
  { gists_created := [],
    uploads := [{ number := 1, kind := ItemKind.issue, action := ActionKind.create },
                { number := 2, kind := ItemKind.pull, action := ActionKind.create }],
    count_error := false }

/-- The outcome of the fixture run against the populated destination. -/
def runPop : RunResult :=
  { gists_created := [],
    uploads := [{ number := 1, kind := ItemKind.issue, action := ActionKind.update },
                { number := 2, kind := ItemKind.pull, action := ActionKind.update }],
    count_error := false }

/-- An empty configuration (nothing configured). -/
def cfg9 : Config :=
  { KNOWN_REPO_MAPPING := [], KNOWN_ISSUES_COUNT_MAPPING := [], USER_MAPPING := [],
    OPEN_ISSUE_OR_PULL_REQUEST_STATES := [], STATE_MAPPING := [], PRIORITY_MAPPING := [],
    KIND_MAPPING := [], COMPONENT_MAPPING := [] }

/-- An export of an empty repository named `team/repo`. -/
def bexport9 : BExport :=
  { repo_full_name := "team/repo", issues := [], pulls := [],
    issue_attachments := fun _ => [], issue_attachment_content := fun _ _ => "",
    issue_comments := fun _ => [], issue_changes := fun _ => [],
    pull_comments := fun _ => [], pull_activity := fun _ => [] }

/-- An empty destination named `gh/repo`. -/
def gimport9 : GithubImport :=
  { repo_full_name := "gh/repo", existing_issues := [], existing_pulls := [],
    issues_count := 0, pulls_count := 0,
    get_or_create_gist := fun _ => { raw_url_of := fun _ => "" } }

/-- `cfg9` completed so that `team/repo` appears in both maps consistently. -/
def cfg9ok : Config :=
  { cfg9 with KNOWN_REPO_MAPPING := [("team/repo", "gh/repo")],
              KNOWN_ISSUES_COUNT_MAPPING := [("team/repo", 0)] }

/-- The character that precedes the rest of the scan after passing over `l`
(the last character of `l`, or the previous one when `l` is empty). -/
def lastOpt (l : List Char) (prev : Option Char) : Option Char :=
  match l.getLast? with
  | some c => some c
  | none => prev

theorem getLast?_cons_isSome (d : Char) (t : List Char) : ∃ x, (d :: t).getLast? = some x := by
  induction t generalizing d with
  | nil => exact ⟨d, rfl⟩
  | cons e u ih => rw [List.getLast?_cons_cons]; exact ih e

theorem lastOpt_cons (c : Char) (l : List Char) (prev : Option Char) :
    lastOpt (c :: l) prev = lastOpt l (some c) := by
  cases l with
  | nil => simp [lastOpt]
  | cons d t =>
    obtain ⟨x, hx⟩ := getLast?_cons_isSome d t
    simp [lastOpt, List.getLast?_cons_cons, hx]

theorem mentionScan_nil (cfg : Config) (fuel : Nat) (prev : Option Char) :
    mentionScan cfg fuel prev [] = [] := by
  cases fuel <;> simp [mentionScan]

theorem mentionScan_cons_ne (cfg : Config) (n : Nat) (prev : Option Char) (c : Char)
    (cs : List Char) (hc : c ≠ '@') :
    mentionScan cfg (n + 1) prev (c :: cs) = c :: mentionScan cfg n (some c) cs := by
  rw [mentionScan.eq_def]
  simp [if_neg hc]

theorem mentionScan_append (cfg : Config) (p : List Char) (hp : ∀ c ∈ p, c ≠ '@') :
    ∀ (rest : List Char) (prev : Option Char),
      mentionScan cfg (p.length + rest.length) prev (p ++ rest) =
        p ++ mentionScan cfg rest.length (lastOpt p prev) rest := by
  induction p with
  | nil => intro rest prev; simp [lastOpt]
  | cons c q ih =>
    intro rest prev
    have hc : c ≠ '@' := hp c (List.mem_cons_self c q)
    have hq : ∀ d ∈ q, d ≠ '@' := fun d hd => hp d (List.mem_cons_of_mem c hd)
    have hl : (c :: q).length + rest.length = (q.length + rest.length) + 1 := by
      rw [List.length_cons]; omega
    rw [hl]
    show mentionScan cfg ((q.length + rest.length) + 1) prev (c :: (q ++ rest)) = _
    rw [mentionScan_cons_ne cfg (q.length + rest.length) prev c (q ++ rest) hc]
    rw [ih hq rest (some c), lastOpt_cons]
    simp

theorem parseMentionHandle_all (h : List Char) (hne : h ≠ [])
    (hall : ∀ c ∈ h, isHandleChar c = true) :
    parseMentionHandle h = some (h, []) := by
  have ht : h.takeWhile isHandleChar = h := List.takeWhile_eq_self_iff.mpr hall
  have hd : h.dropWhile isHandleChar = [] := List.dropWhile_eq_nil_iff.mpr hall
  unfold parseMentionHandle
  rw [ht, hd]
  cases h with
  | nil => exact absurd rfl hne
  | cons c t => simp

theorem mentionScan_at_mention (cfg : Config) (h : List Char) (hne : h ≠ [])
    (hall : ∀ c ∈ h, isHandleChar c = true) (prev : Option Char)
    (hprev : (prev.all fun c => !isWordChar c) = true) :
    mentionScan cfg (h.length + 1) prev ('@' :: h) =
      '@' :: (lookup_user cfg (String.mk h)).data := by
  have hcond : mentionBoundaryOk prev = true := by
    cases prev with
    | none => rfl
    | some p => simpa [mentionBoundaryOk, Option.all] using hprev
  rw [mentionScan.eq_def]
  simp only [if_pos rfl, hcond, if_true, parseMentionHandle_all h hne hall]
  simp [mentionScan_nil]

theorem replace_links_to_users_single_mention (cfg : Config) (p h : String)
    (hp_at : ∀ c ∈ p.data, c ≠ '@')
    (hp_last : ((p.data.getLast?).all fun c => !isWordChar c) = true)
    (hne : h.data ≠ [])
    (hall : ∀ c ∈ h.data, isHandleChar c = true) :
    replace_links_to_users cfg (p ++ "@" ++ h) = p ++ "@" ++ lookup_user cfg h := by
  have hdata : (p ++ "@" ++ h).data = p.data ++ ('@' :: h.data) := by
    simp [String.data_append]
  have hlen : (p ++ "@" ++ h).data.length = p.data.length + ('@' :: h.data).length := by
    rw [hdata]; simp
  have hprev : ((lastOpt p.data none).all fun c => !isWordChar c) = true := by
    unfold lastOpt
    cases hgl : p.data.getLast? with
    | none => rfl
    | some c => rw [hgl] at hp_last; simpa using hp_last
  have key : mentionScan cfg (p.data.length + ('@' :: h.data).length) none (p.data ++ ('@' :: h.data)) =
      p.data ++ ('@' :: (lookup_user cfg (String.mk h.data)).data) := by
    rw [mentionScan_append cfg p.data hp_at ('@' :: h.data) none]
    have h1 : ('@' :: h.data).length = h.data.length + 1 := by rw [List.length_cons]
    rw [h1, mentionScan_at_mention cfg h.data hne hall (lastOpt p.data none) hprev]
  unfold replace_links_to_users
  rw [hlen, hdata, key]
  have hmk : String.mk h.data = h := rfl
  rw [hmk]
  apply String.ext
  simp [String.data_append]

theorem lookup_user_has_ignore (cfg : Config) (h : String) :
    ∃ t, lookup_user cfg h = "ignore_" ++ t := by
  unfold lookup_user
  cases dictGet cfg.USER_MAPPING h with
  | none => exact ⟨h, rfl⟩
  | some g => exact ⟨g, rfl⟩

theorem except_bind_error {α β : Type} {m : Except PyErr α} {f : α → Except PyErr β} {e : PyErr}
    (h : m.bind f = Except.error e) : m = Except.error e ∨ ∃ x, m = Except.ok x ∧ f x = Except.error e := by
  cases m with
  | error e2 => simp [Except.bind] at h; left; rw [h]
  | ok x => right; exact ⟨x, rfl, by simpa [Except.bind] using h⟩

theorem except_bind_ok {α β : Type} {m : Except PyErr α} {f : α → Except PyErr β} {b : β}
    (h : m.bind f = Except.ok b) : ∃ a, m = Except.ok a ∧ f a = Except.ok b := by
  cases m with
  | error e2 => simp [Except.bind] at h
  | ok x => exact ⟨x, rfl, by simpa [Except.bind] using h⟩

theorem except_map_error {α β : Type} {m : Except PyErr α} {f : α → β} {e : PyErr} :
    m.map f = Except.error e ↔ m = Except.error e := by
  cases m <;> simp [Except.map]

theorem ite_some_error {c : Prop} [Decidable c] {a rest r : List Char} {e : PyErr}
    (h : (if c then some (Except.error PyErr.typeError, rest)
          else some (Except.ok a, rest)) = some (Except.error e, r)) :
    e = PyErr.typeError := by
  by_cases hc : c
  · rw [if_pos hc] at h; simp at h; exact h.1.symm
  · rw [if_neg hc] at h; simp at h

-- only typeError escapes the implicit-pr callback
theorem tryImplicitPr_error {cfg : Config} {args : Args} {s r : List Char} {e : PyErr}
    (h : tryImplicitPr cfg args s = some (Except.error e, r)) : e = PyErr.typeError := by
  unfold tryImplicitPr at h
  repeat' split at h
  all_goals (first | exact ite_some_error h | simp_all)

theorem subScanE_succ_cons (try1 : List Char → Option (Except PyErr (List Char) × List Char))
    (n : Nat) (c : Char) (cs : List Char) :
    subScanE try1 (n + 1) (c :: cs) =
      match try1 (c :: cs) with
      | some (Except.ok repl, rest) => (subScanE try1 n rest).map (fun t => repl ++ t)
      | some (Except.error e, _) => Except.error e
      | none => (subScanE try1 n cs).map (fun t => c :: t) := rfl

theorem subScanE_implicitPr_error {cfg : Config} {args : Args} {e : PyErr} :
    ∀ (fuel : Nat) (s : List Char),
      subScanE (tryImplicitPr cfg args) fuel s = Except.error e → e = PyErr.typeError := by
  intro fuel
  induction fuel with
  | zero => intro s h; simp [subScanE] at h
  | succ n ih =>
    intro s h
    cases s with
    | nil => simp [subScanE] at h
    | cons c cs =>
      rw [subScanE_succ_cons] at h
      split at h
      · rw [except_map_error] at h; exact ih _ h
      · rename_i heq; cases h; exact tryImplicitPr_error heq
      · rw [except_map_error] at h; exact ih _ h

theorem replace_implicit_links_to_prs_error {cfg : Config} {args : Args} {s : String} {e : PyErr}
    (h : replace_implicit_links_to_prs cfg s args = Except.error e) : e = PyErr.typeError := by
  unfold replace_implicit_links_to_prs at h
  rw [except_map_error] at h
  exact subScanE_implicitPr_error _ _ h

theorem map_content_error {cfg : Config} {args : Args} {s : String} {e : PyErr}
    (h : map_content cfg args s = Except.error e) : e = PyErr.typeError := by
  unfold map_content at h
  rw [except_map_error] at h
  exact replace_implicit_links_to_prs_error h

theorem convert_date_error {s : String} {e : PyErr}
    (h : convert_date s = Except.error e) : e = PyErr.runtimeError := by
  unfold convert_date at h
  split at h <;> simp_all

theorem construct_gcomment_body_ne_assert {cfg : Config} {dp : DateParser} {args : Args}
    {c : BComment} {all : List (Nat × BComment)} {e : PyErr}
    (h : construct_gcomment_body cfg dp args c all = Except.error e) :
    e ≠ PyErr.assertionError := by
  intro he; subst he
  unfold construct_gcomment_body at h
  split at h
  · exact absurd h (by simp)
  · rcases except_bind_error h with h1 | ⟨pp, hpp, h2⟩
    · split at h1
      · exact absurd h1 (by simp)
      · split at h1
        · exact absurd h1 (by simp)
        · split at h1
          · exact absurd h1 (by simp)
          · rw [except_map_error] at h1
            exact absurd (map_content_error h1) (by simp)
    · rcases except_bind_error h2 with h3 | ⟨bp, hbp, h4⟩
      · split at h3
        · exact absurd h3 (by simp)
        · exact absurd (map_content_error h3) (by simp)
      · exact absurd h4 (by simp)

theorem construct_gissue_body_ne_assert {cfg : Config} {dp : DateParser} {args : Args}
    {bissue : BIssue} {batt : List String} {gmap : List (Nat × Gist)} {e : PyErr}
    (h : construct_gissue_body cfg dp args bissue batt gmap = Except.error e) :
    e ≠ PyErr.assertionError := by
  intro he; subst he
  unfold construct_gissue_body at h
  split at h
  · exact absurd h (by simp)
  · rcases except_bind_error h with h1 | ⟨ct, hct, h2⟩
    · exact absurd (map_content_error h1) (by simp)
    · exact absurd h2 (by simp)

theorem construct_gpull_request_body_ne_assert {cfg : Config} {dp : DateParser}
    {cmap : CommitMap} {args : Args} {bexport : BExport} {bpull : BPull} {e : PyErr}
    (h : construct_gpull_request_body cfg dp cmap args bexport bpull = Except.error e) :
    e ≠ PyErr.assertionError := by
  intro he; subst he
  unfold construct_gpull_request_body at h
  rcases except_bind_error h with h1 | ⟨src, hsrc, h2⟩
  · repeat' split at h1
    all_goals exact absurd h1 (by simp)
  · dsimp only at h2
    repeat' split at h2
    all_goals (first
      | (rcases except_bind_error h2 with h3 | ⟨ct, hct, h4⟩
         · exact absurd (map_content_error h3) (by simp)
         · exact absurd h4 (by simp))
      | exact absurd h2 (by simp))

theorem construct_gissue_comments_loop_cons (cfg : Config) (dp : DateParser) (args : Args)
    (all : List (Nat × BComment)) (cid : Nat) (bcomment : BComment)
    (rest : List (Nat × BComment)) :
    construct_gissue_comments_loop cfg dp args all ((cid, bcomment) :: rest) =
      (if bcomment.content_raw.isNone then
        construct_gissue_comments_loop cfg dp args all rest
      else if bcomment.deleted.getD false then
        construct_gissue_comments_loop cfg dp args all rest
      else
        (construct_gcomment_body cfg dp args bcomment all).bind (fun body =>
          (convert_date bcomment.created_on).bind (fun created =>
            (construct_gissue_comments_loop cfg dp args all rest).bind (fun tail =>
              Except.ok ({ body := body, created_at := created } :: tail))))) := rfl

theorem construct_gissue_comments_loop_ne_assert {cfg : Config} {dp : DateParser}
    {args : Args} {all : List (Nat × BComment)} {e : PyErr} :
    ∀ (l : List (Nat × BComment)),
      construct_gissue_comments_loop cfg dp args all l = Except.error e →
        e ≠ PyErr.assertionError := by
  intro l
  induction l with
  | nil => intro h; simp [construct_gissue_comments_loop] at h
  | cons hd tl ih =>
    intro h
    obtain ⟨cid, bcomment⟩ := hd
    rw [construct_gissue_comments_loop_cons] at h
    split_ifs at h
    · exact ih h
    · exact ih h
    · rcases except_bind_error h with h1 | ⟨b, hb, h2⟩
      · exact construct_gcomment_body_ne_assert h1
      · rcases except_bind_error h2 with h3 | ⟨cr, hcr, h4⟩
        · intro he; subst he; exact absurd (convert_date_error h3) (by simp)
        · rcases except_bind_error h4 with h5 | ⟨tl2, htl2, h6⟩
          · exact ih h5
          · intro he; subst he; exact absurd h6 (by simp)

theorem construct_gissue_comments_ne_assert {cfg : Config} {dp : DateParser} {args : Args}
    {bcomments : List (Nat × BComment)} {e : PyErr}
    (h : construct_gissue_comments cfg dp args bcomments = Except.error e) :
    e ≠ PyErr.assertionError := by
  unfold construct_gissue_comments at h
  rw [except_map_error] at h
  exact construct_gissue_comments_loop_ne_assert _ h

theorem construct_gissue_comments_for_changes_cons (cfg : Config) (dp : DateParser)
    (bchange : BChange) (rest : List BChange) :
    construct_gissue_comments_for_changes cfg dp (bchange :: rest) =
      (if construct_gcomment_body_for_change cfg dp bchange = "" then
        construct_gissue_comments_for_changes cfg dp rest
      else
        (convert_date bchange.created_on).bind (fun created =>
          (construct_gissue_comments_for_changes cfg dp rest).bind (fun tail =>
            Except.ok ({ body := construct_gcomment_body_for_change cfg dp bchange,
                         created_at := created } :: tail)))) := rfl

theorem construct_gissue_comments_for_changes_ne_assert {cfg : Config} {dp : DateParser}
    {e : PyErr} :
    ∀ (l : List BChange),
      construct_gissue_comments_for_changes cfg dp l = Except.error e →
        e ≠ PyErr.assertionError := by
  intro l
  induction l with
  | nil => intro h; simp [construct_gissue_comments_for_changes] at h
  | cons hd tl ih =>
    intro h
    rw [construct_gissue_comments_for_changes_cons] at h
    split_ifs at h
    · exact ih h
    · rcases except_bind_error h with h1 | ⟨cr, hcr, h2⟩
      · intro he; subst he; exact absurd (convert_date_error h1) (by simp)
      · rcases except_bind_error h2 with h3 | ⟨tl2, htl2, h4⟩
        · exact ih h3
        · intro he; subst he; exact absurd h4 (by simp)

theorem construct_gissue_comments_for_activity_ne_assert {cfg : Config} {dp : DateParser}
    {e : PyErr} :
    ∀ (l : List BActivity),
      construct_gissue_comments_for_activity cfg dp l = Except.error e →
        e ≠ PyErr.assertionError := by
  intro l
  induction l with
  | nil => intro h; simp [construct_gissue_comments_for_activity] at h
  | cons hd tl ih =>
    intro h
    cases hd with
    | other => exact ih h
    | approval date user =>
      rcases except_bind_error h with h1 | ⟨cr, hcr, h2⟩
      · intro he; subst he; exact absurd (convert_date_error h1) (by simp)
      · rcases except_bind_error h2 with h3 | ⟨tl2, htl2, h4⟩
        · exact ih h3
        · intro he; subst he; exact absurd h4 (by simp)

theorem construct_gissue_from_bissue_ne_assert {cfg : Config} {dp : DateParser} {args : Args}
    {bexport : BExport} {gmap : List (Nat × Gist)} {bissue : BIssue} {e : PyErr}
    (h : construct_gissue_from_bissue cfg dp args bexport gmap bissue = Except.error e) :
    e ≠ PyErr.assertionError := by
  unfold construct_gissue_from_bissue at h
  rcases except_bind_error h with h1 | ⟨b, hb, h2⟩
  · exact construct_gissue_body_ne_assert h1
  · rcases except_bind_error h2 with h3 | ⟨c1, hc1, h4⟩
    · exact construct_gissue_comments_ne_assert h3
    · rcases except_bind_error h4 with h5 | ⟨c2, hc2, h6⟩
      · exact construct_gissue_comments_for_changes_ne_assert _ h5
      · rcases except_bind_error h6 with h7 | ⟨cr, hcr, h8⟩
        · intro he; subst he; exact absurd (convert_date_error h7) (by simp)
        · rcases except_bind_error h8 with h9 | ⟨up, hup, h10⟩
          · intro he; subst he; exact absurd (convert_date_error h9) (by simp)
          · intro he; subst he; exact absurd h10 (by simp)

theorem construct_gissue_or_gpull_from_bpull_ne_assert {cfg : Config} {dp : DateParser}
    {cmap : CommitMap} {args : Args} {bexport : BExport} {bpull : BPull} {e : PyErr}
    (h : construct_gissue_or_gpull_from_bpull cfg dp cmap args bexport bpull = Except.error e) :
    e ≠ PyErr.assertionError := by
  unfold construct_gissue_or_gpull_from_bpull at h
  rcases except_bind_error h with h1 | ⟨b, hb, h2⟩
  · exact construct_gpull_request_body_ne_assert h1
  · rcases except_bind_error h2 with h3 | ⟨c1, hc1, h4⟩
    · exact construct_gissue_comments_ne_assert h3
    · rcases except_bind_error h4 with h5 | ⟨c2, hc2, h6⟩
      · exact construct_gissue_comments_for_activity_ne_assert _ h5
      · dsimp only at h6
        split at h6
        · rcases except_bind_error h6 with h7 | ⟨cr, hcr, h8⟩
          · intro he; subst he; exact absurd (convert_date_error h7) (by simp)
          · rcases except_bind_error h8 with h9 | ⟨up, hup, h10⟩
            · intro he; subst he; exact absurd (convert_date_error h9) (by simp)
            · intro he; subst he; exact absurd h10 (by simp)
        · intro he; subst he; exact absurd h6 (by simp)

theorem prepare_issues_ne_assert {cfg : Config} {dp : DateParser} {args : Args}
    {bexport : BExport} {gmap : List (Nat × Gist)} {e : PyErr} :
    ∀ (l : List BIssue),
      prepare_issues cfg dp args bexport gmap l = Except.error e → e ≠ PyErr.assertionError := by
  intro l
  induction l with
  | nil => intro h; simp [prepare_issues] at h
  | cons hd tl ih =>
    intro h
    rw [prepare_issues.eq_def] at h
    rcases except_bind_error h with h1 | ⟨g, hg, h2⟩
    · exact construct_gissue_from_bissue_ne_assert h1
    · rcases except_bind_error h2 with h3 | ⟨t, ht, h4⟩
      · exact ih h3
      · intro he; subst he; exact absurd h4 (by simp)

theorem prepare_pulls_ne_assert {cfg : Config} {dp : DateParser} {cmap : CommitMap}
    {args : Args} {bexport : BExport} {e : PyErr} :
    ∀ (l : List BPull),
      prepare_pulls cfg dp cmap args bexport l = Except.error e → e ≠ PyErr.assertionError := by
  intro l
  induction l with
  | nil => intro h; simp [prepare_pulls] at h
  | cons hd tl ih =>
    intro h
    rw [prepare_pulls.eq_def] at h
    rcases except_bind_error h with h1 | ⟨g, hg, h2⟩
    · exact construct_gissue_or_gpull_from_bpull_ne_assert h1
    · rcases except_bind_error h2 with h3 | ⟨t, ht, h4⟩
      · exact ih h3
      · intro he; subst he; exact absurd h4 (by simp)

theorem prepare_items_ne_assert {cfg : Config} {dp : DateParser} {cmap : CommitMap}
    {args : Args} {bexport : BExport} {gmap : List (Nat × Gist)} {e : PyErr}
    (h : prepare_items cfg dp cmap args bexport gmap = Except.error e) :
    e ≠ PyErr.assertionError := by
  unfold prepare_items at h
  rcases except_bind_error h with h1 | ⟨li, hli, h2⟩
  · exact prepare_issues_ne_assert _ h1
  · rcases except_bind_error h2 with h3 | ⟨lp, hlp, h4⟩
    · exact prepare_pulls_ne_assert _ h3
    · intro he; subst he; exact absurd h4 (by simp)

/-- Claim C1: `bitbucket_to_github` asserts, before the attachment migration,
the preparation loops and the upload loop, that the source repository has a
configured issue count equal to the number of fetched issues.  When the
configured count is absent or differs, the run is the `AssertionError` abort
(in this model an aborted run produces no `RunResult`, hence no gist write
and no create/update call); when the counts agree, the run never aborts with
`AssertionError`. -/
theorem c1_offset_gate (cfg : Config) (dp : DateParser) (bexport : BExport)
    (gimport : GithubImport) (cmap : CommitMap) (args : Args) :
    (dictGet cfg.KNOWN_ISSUES_COUNT_MAPPING bexport.repo_full_name ≠
        some bexport.issues.length →
      bitbucket_to_github cfg dp bexport gimport cmap args = Except.error PyErr.assertionError)
    ∧ (dictGet cfg.KNOWN_ISSUES_COUNT_MAPPING bexport.repo_full_name =
        some bexport.issues.length →
      bitbucket_to_github cfg dp bexport gimport cmap args ≠
        Except.error PyErr.assertionError) := by
  constructor
  · intro hne
    cases hd : dictGet cfg.KNOWN_ISSUES_COUNT_MAPPING bexport.repo_full_name with
    | none => simp [bitbucket_to_github, hd]
    | some cnt =>
      have hne2 : cnt ≠ bexport.issues.length := fun hc => hne (by rw [hd, hc])
      simp [bitbucket_to_github, hd, hne2]
  · intro heq
    cases hp : prepare_items cfg dp cmap args bexport
        (attachments_phase bexport gimport args).1 with
    | error e =>
      have hne := prepare_items_ne_assert hp
      simp [bitbucket_to_github, heq, hp]
      exact hne
    | ok items => simp [bitbucket_to_github, heq, hp]

-- length lemmas for the preparation phase
theorem prepare_issues_cons (cfg : Config) (dp : DateParser) (args : Args)
    (bexport : BExport) (gmap : List (Nat × Gist)) (bissue : BIssue) (rest : List BIssue) :
    prepare_issues cfg dp args bexport gmap (bissue :: rest) =
      (construct_gissue_from_bissue cfg dp args bexport gmap bissue).bind (fun gissue =>
        (prepare_issues cfg dp args bexport gmap rest).bind (fun tail =>
          Except.ok (TypedItem.issue gissue :: tail))) := rfl

theorem prepare_pulls_cons (cfg : Config) (dp : DateParser) (cmap : CommitMap) (args : Args)
    (bexport : BExport) (bpull : BPull) (rest : List BPull) :
    prepare_pulls cfg dp cmap args bexport (bpull :: rest) =
      (construct_gissue_or_gpull_from_bpull cfg dp cmap args bexport bpull).bind (fun item =>
        (prepare_pulls cfg dp cmap args bexport rest).bind (fun tail =>
          Except.ok (item :: tail))) := rfl

theorem prepare_issues_length {cfg : Config} {dp : DateParser} {args : Args}
    {bexport : BExport} {gmap : List (Nat × Gist)} :
    ∀ {l : List BIssue} {out : List TypedItem},
      prepare_issues cfg dp args bexport gmap l = Except.ok out → out.length = l.length := by
  intro l
  induction l with
  | nil => intro out h; simp [prepare_issues] at h; simp [← h]
  | cons hd tl ih =>
    intro out h
    rw [prepare_issues_cons] at h
    rcases except_bind_ok h with ⟨g, hg, h2⟩
    rcases except_bind_ok h2 with ⟨t, ht, h4⟩
    have : TypedItem.issue g :: t = out := by simpa using h4
    rw [← this]
    simp [ih ht]

theorem prepare_pulls_length {cfg : Config} {dp : DateParser} {cmap : CommitMap}
    {args : Args} {bexport : BExport} :
    ∀ {l : List BPull} {out : List TypedItem},
      prepare_pulls cfg dp cmap args bexport l = Except.ok out → out.length = l.length := by
  intro l
  induction l with
  | nil => intro out h; simp [prepare_pulls] at h; simp [← h]
  | cons hd tl ih =>
    intro out h
    rw [prepare_pulls_cons] at h
    rcases except_bind_ok h with ⟨g, hg, h2⟩
    rcases except_bind_ok h2 with ⟨t, ht, h4⟩
    have : g :: t = out := by simpa using h4
    rw [← this]
    simp [ih ht]

theorem prepare_items_split {cfg : Config} {dp : DateParser} {cmap : CommitMap}
    {args : Args} {bexport : BExport} {gmap : List (Nat × Gist)} {items : List TypedItem}
    (h : prepare_items cfg dp cmap args bexport gmap = Except.ok items) :
    ∃ li lp, prepare_issues cfg dp args bexport gmap bexport.issues = Except.ok li ∧
      prepare_pulls cfg dp cmap args bexport bexport.pulls = Except.ok lp ∧
      items = li ++ lp ∧ li.length = bexport.issues.length ∧
      lp.length = bexport.pulls.length := by
  unfold prepare_items at h
  rcases except_bind_ok h with ⟨li, hli, h2⟩
  rcases except_bind_ok h2 with ⟨lp, hlp, h4⟩
  refine ⟨li, lp, hli, hlp, ?_, prepare_issues_length hli, prepare_pulls_length hlp⟩
  have : li ++ lp = items := by simpa using h4
  rw [this]

-- upload-loop lemmas
theorem upload_actions_cons (gimport : GithubImport) (index : Nat) (item : TypedItem)
    (rest : List TypedItem) :
    upload_actions gimport index (item :: rest) =
      mkUploadAction gimport (index + 1) item :: upload_actions gimport (index + 1) rest := rfl

theorem upload_actions_length (gimport : GithubImport) :
    ∀ (index : Nat) (l : List TypedItem),
      (upload_actions gimport index l).length = l.length := by
  intro index l
  induction l generalizing index with
  | nil => rfl
  | cons hd tl ih => rw [upload_actions_cons]; simp [ih]

theorem upload_actions_getElem (gimport : GithubImport) :
    ∀ (l : List TypedItem) (index k : Nat),
      (upload_actions gimport index l)[k]? =
        (l[k]?).map (fun item => mkUploadAction gimport (index + k + 1) item) := by
  intro l
  induction l with
  | nil => intro index k; simp [upload_actions]
  | cons hd tl ih =>
    intro index k
    rw [upload_actions_cons]
    cases k with
    | zero => simp
    | succ k2 =>
      simp only [List.getElem?_cons_succ]
      rw [ih (index + 1) k2]
      have : index + 1 + k2 + 1 = index + (k2 + 1) + 1 := by omega
      rw [this]

theorem upload_actions_mem (gimport : GithubImport) :
    ∀ (l : List TypedItem) (index : Nat) (a : UploadAction),
      a ∈ upload_actions gimport index l →
        ∃ number item, a = mkUploadAction gimport number item := by
  intro l
  induction l with
  | nil => intro index a ha; simp [upload_actions] at ha
  | cons hd tl ih =>
    intro index a ha
    rw [upload_actions_cons] at ha
    rcases List.mem_cons.mp ha with h1 | h2
    · exact ⟨index + 1, hd, h1⟩
    · exact ih (index + 1) a h2

theorem run_ok_uploads {cfg : Config} {dp : DateParser} {bexport : BExport}
    {gimport : GithubImport} {cmap : CommitMap} {args : Args} {r : RunResult}
    (hrun : bitbucket_to_github cfg dp bexport gimport cmap args = Except.ok r) :
    dictGet cfg.KNOWN_ISSUES_COUNT_MAPPING bexport.repo_full_name =
      some bexport.issues.length ∧
    ∃ items, prepare_items cfg dp cmap args bexport
        (attachments_phase bexport gimport args).1 = Except.ok items ∧
      r.uploads = upload_actions gimport 0 items ∧
      items.length = bexport.issues.length + bexport.pulls.length := by
  cases hd : dictGet cfg.KNOWN_ISSUES_COUNT_MAPPING bexport.repo_full_name with
  | none => simp [bitbucket_to_github, hd] at hrun
  | some cnt =>
    by_cases hc : cnt = bexport.issues.length
    · subst hc
      cases hp : prepare_items cfg dp cmap args bexport
          (attachments_phase bexport gimport args).1 with
      | error e => simp [bitbucket_to_github, hd, hp] at hrun
      | ok items =>
        simp [bitbucket_to_github, hd, hp] at hrun
        obtain ⟨li, lp, hli, hlp, hitems, hl1, hl2⟩ := prepare_items_split hp
        refine ⟨rfl, items, rfl, ?_, ?_⟩
        · rw [← hrun]
        · rw [hitems]; simp [hl1, hl2]
    · simp [bitbucket_to_github, hd, hc] at hrun

theorem upload_actions_get_eq (gimport : GithubImport) (items : List TypedItem) (k : Nat)
    (hk : k < (upload_actions gimport 0 items).length) :
    ∃ hk2 : k < items.length,
      (upload_actions gimport 0 items).get ⟨k, hk⟩ =
        mkUploadAction gimport (k + 1) (items.get ⟨k, hk2⟩) := by
  have hk2 : k < items.length := by rwa [upload_actions_length] at hk
  refine ⟨hk2, ?_⟩
  have h1 := upload_actions_getElem gimport items 0 k
  rw [List.getElem?_eq_getElem hk2] at h1
  rw [List.getElem?_eq_getElem hk] at h1
  simp only [Option.map_some'] at h1
  have h2 := Option.some.inj h1
  rw [List.get_eq_getElem, h2]
  simp

theorem mkUploadAction_spec (gimport : GithubImport) (number : Nat) (item : TypedItem) :
    ((mkUploadAction gimport number item).kind = ItemKind.issue →
      (((mkUploadAction gimport number item).action = ActionKind.update ↔
          number ∈ gimport.existing_issues) ∧
        ((mkUploadAction gimport number item).action = ActionKind.create ↔
          number ∉ gimport.existing_issues))) ∧
    ((mkUploadAction gimport number item).kind = ItemKind.pull →
      (((mkUploadAction gimport number item).action = ActionKind.update ↔
          number ∈ gimport.existing_pulls) ∧
        ((mkUploadAction gimport number item).action = ActionKind.create ↔
          number ∉ gimport.existing_pulls))) := by
  cases item with
  | issue d =>
    constructor
    · intro _
      by_cases hmem : number ∈ gimport.existing_issues
      · have hc : gimport.existing_issues.contains number = true := List.elem_iff.mpr hmem
        simp [mkUploadAction, hc, hmem]
      · have hc : gimport.existing_issues.contains number = false := by
          rw [Bool.eq_false_iff]; intro hcc; exact hmem (List.elem_iff.mp hcc)
        simp [mkUploadAction, hc, hmem]
    · intro hk; simp [mkUploadAction] at hk
  | pull d =>
    constructor
    · intro hk; simp [mkUploadAction] at hk
    · intro _
      by_cases hmem : number ∈ gimport.existing_pulls
      · have hc : gimport.existing_pulls.contains number = true := List.elem_iff.mpr hmem
        simp [mkUploadAction, hc, hmem]
      · have hc : gimport.existing_pulls.contains number = false := by
          rw [Bool.eq_false_iff]; intro hcc; exact hmem (List.elem_iff.mp hcc)
        simp [mkUploadAction, hc, hmem]

theorem mkUploadAction_number_self (gimport : GithubImport) (number : Nat) (item : TypedItem) :
    (mkUploadAction gimport number item).number = number := by
  cases item <;> rfl

/-- Claim C2: in a completed run, the unified number of every uploaded item
is its 1-based position in the processing order (all issues, then all pull
requests); under the precondition that issues and pull requests are fetched
contiguously from 1 in ascending id order, the issue at position `i` gets
number equal to its own id, and the pull request at position `j` gets number
equal to its id plus the configured issue count of the repository (which the
gate forces to equal the number of fetched issues). -/
theorem c2_unified_numbering {cfg : Config} {dp : DateParser} {bexport : BExport} {gimport : GithubImport}
    {cmap : CommitMap} {args : Args} {r : RunResult}
    (hrun : bitbucket_to_github cfg dp bexport gimport cmap args = Except.ok r)
    (hI : ∀ (i : Nat) (hi : i < bexport.issues.length),
      (bexport.issues.get ⟨i, hi⟩).id = i + 1)
    (hP : ∀ (j : Nat) (hj : j < bexport.pulls.length),
      (bexport.pulls.get ⟨j, hj⟩).id = j + 1) :
    dictGet cfg.KNOWN_ISSUES_COUNT_MAPPING bexport.repo_full_name =
      some bexport.issues.length ∧
    r.uploads.length = bexport.issues.length + bexport.pulls.length ∧
    (∀ (k : Nat) (hk : k < r.uploads.length), (r.uploads.get ⟨k, hk⟩).number = k + 1) ∧
    (∀ (i : Nat) (hi : i < bexport.issues.length), ∃ hk : i < r.uploads.length,
      (r.uploads.get ⟨i, hk⟩).number = (bexport.issues.get ⟨i, hi⟩).id) ∧
    (∀ (j : Nat) (hj : j < bexport.pulls.length),
      ∃ hk : bexport.issues.length + j < r.uploads.length,
        (r.uploads.get ⟨bexport.issues.length + j, hk⟩).number =
          (bexport.pulls.get ⟨j, hj⟩).id + bexport.issues.length) := by
  obtain ⟨hcnt, items, hprep, hupl, hlen⟩ := run_ok_uploads hrun
  obtain ⟨rg, ru, rc⟩ := r
  dsimp only at hupl
  subst hupl
  dsimp only
  refine ⟨hcnt, ?_, ?_, ?_, ?_⟩
  · rw [upload_actions_length, hlen]
  · intro k hk
    obtain ⟨hki, hge⟩ := upload_actions_get_eq gimport items k hk
    rw [hge, mkUploadAction_number_self]
  · intro i hi
    have hki : i < (upload_actions gimport 0 items).length := by
      rw [upload_actions_length, hlen]; omega
    refine ⟨hki, ?_⟩
    obtain ⟨hki2, hge⟩ := upload_actions_get_eq gimport items i hki
    rw [hge, mkUploadAction_number_self, hI i hi]
  · intro j hj
    have hki : bexport.issues.length + j < (upload_actions gimport 0 items).length := by
      rw [upload_actions_length, hlen]; omega
    refine ⟨hki, ?_⟩
    obtain ⟨hki2, hge⟩ := upload_actions_get_eq gimport items (bexport.issues.length + j) hki
    rw [hge, mkUploadAction_number_self, hP j hj]
    omega

/-- Claim C7: in a completed run, the upload loop issues an update call for
an item exactly when the destination snapshot taken before the loop already
contains its unified number (in the map matching the item type: issues in
`get_issues()`, pulls in `get_pulls()`), and a create call exactly otherwise;
consequently, a run against a destination already populated at every one of
its unified numbers issues only updates and no creates, leaving the
destination item count unchanged. -/
theorem c7_reconciler_create_update {cfg : Config} {dp : DateParser} {bexport : BExport} {gimport : GithubImport}
    {cmap : CommitMap} {args : Args} {r : RunResult}
    (hrun : bitbucket_to_github cfg dp bexport gimport cmap args = Except.ok r) :
    (∀ a ∈ r.uploads,
      (a.kind = ItemKind.issue →
        ((a.action = ActionKind.update ↔ a.number ∈ gimport.existing_issues) ∧
          (a.action = ActionKind.create ↔ a.number ∉ gimport.existing_issues))) ∧
      (a.kind = ItemKind.pull →
        ((a.action = ActionKind.update ↔ a.number ∈ gimport.existing_pulls) ∧
          (a.action = ActionKind.create ↔ a.number ∉ gimport.existing_pulls)))) ∧
    ((∀ a ∈ r.uploads,
        (a.kind = ItemKind.issue → a.number ∈ gimport.existing_issues) ∧
        (a.kind = ItemKind.pull → a.number ∈ gimport.existing_pulls)) →
      (∀ a ∈ r.uploads, a.action = ActionKind.update) ∧
      r.uploads.filter (fun a => a.action == ActionKind.create) = []) := by
  obtain ⟨hcnt, items, hprep, hupl, hlen⟩ := run_ok_uploads hrun
  obtain ⟨rg, ru, rc⟩ := r
  dsimp only at hupl
  subst hupl
  dsimp only
  have hmain : ∀ a ∈ upload_actions gimport 0 items,
      (a.kind = ItemKind.issue →
        ((a.action = ActionKind.update ↔ a.number ∈ gimport.existing_issues) ∧
          (a.action = ActionKind.create ↔ a.number ∉ gimport.existing_issues))) ∧
      (a.kind = ItemKind.pull →
        ((a.action = ActionKind.update ↔ a.number ∈ gimport.existing_pulls) ∧
          (a.action = ActionKind.create ↔ a.number ∉ gimport.existing_pulls))) := by
    intro a ha
    obtain ⟨num, it, rfl⟩ := upload_actions_mem gimport items 0 a ha
    rw [mkUploadAction_number_self]
    exact mkUploadAction_spec gimport num it
  refine ⟨hmain, ?_⟩
  intro hpop
  have hupd : ∀ a ∈ upload_actions gimport 0 items, a.action = ActionKind.update := by
    intro a ha
    obtain ⟨hiss, hpul⟩ := hmain a ha
    obtain ⟨hip, hpp⟩ := hpop a ha
    cases hk : a.kind with
    | issue => exact ((hiss hk).1).mpr (hip hk)
    | pull => exact ((hpul hk).1).mpr (hpp hk)
  refine ⟨hupd, ?_⟩
  rw [List.filter_eq_nil_iff]
  intro a ha
  rw [hupd a ha]
  simp

/-- Claim C8: given that the offset gate passes and the preparation phase
succeeds, the run completes with an `ok` result whatever the destination
counts are; the final count check only sets the reported-error flag, which
is true exactly when the total destination item count differs from the
total source item count. -/
theorem c8_final_count_check (cfg : Config) (dp : DateParser) (bexport : BExport) (gimport : GithubImport)
    (cmap : CommitMap) (args : Args)
    (hcnt : dictGet cfg.KNOWN_ISSUES_COUNT_MAPPING bexport.repo_full_name =
      some bexport.issues.length)
    (hprep : ∃ items, prepare_items cfg dp cmap args bexport
      (attachments_phase bexport gimport args).1 = Except.ok items) :
    ∃ r, bitbucket_to_github cfg dp bexport gimport cmap args = Except.ok r ∧
      (r.count_error = true ↔
        bexport.issues.length + bexport.pulls.length ≠
          gimport.issues_count + gimport.pulls_count) := by
  obtain ⟨items, hp⟩ := hprep
  refine ⟨{ gists_created := (attachments_phase bexport gimport args).2,
            uploads := upload_actions gimport 0 items,
            count_error := final_count_error bexport gimport }, ?_, ?_⟩
  · simp [bitbucket_to_github, hcnt, hp]
  · simp [final_count_error, bne_iff_ne]

/-- Claim C10: when a pull request's source repository and source commit are
both `None`, `construct_gpull_request_body` raises for every such pull
request (first conjunct); when additionally the source branch and the
destination sub-records are present (so no `TypeError` fires first), the
raise is precisely the `UnboundLocalError` from reading the never-assigned
local `source_ghash` in the destination section. -/
theorem c10_pull_body_unbound_source_ghash {cfg : Config} {dp : DateParser} {cmap : CommitMap} {args : Args}
    {bexport : BExport} {bpull : BPull}
    (h1 : bpull.source.repository = none) (h2 : bpull.source.commit = none) :
    (∃ e, construct_gpull_request_body cfg dp cmap args bexport bpull = Except.error e) ∧
    (bpull.source.branch ≠ none → bpull.destination.repository ≠ none →
      bpull.destination.branch ≠ none → bpull.destination.commit ≠ none →
      construct_gpull_request_body cfg dp cmap args bexport bpull =
        Except.error PyErr.unboundLocalError) := by
  have hc : (bpull.source.repository.isNone && bpull.source.commit.isNone) = true := by
    rw [h1, h2]; rfl
  cases hb : bpull.source.branch with
  | none =>
    constructor
    · exact ⟨PyErr.typeError, by simp [construct_gpull_request_body, hc, hb, Except.bind]⟩
    · intro hbr; exact absurd rfl hbr
  | some b =>
    cases hdr : bpull.destination.repository with
    | none =>
      constructor
      · exact ⟨PyErr.typeError, by simp [construct_gpull_request_body, hc, hb, hdr, Except.bind]⟩
      · intro _ hdr2; exact absurd rfl hdr2
    | some drepo =>
      cases hdb : bpull.destination.branch with
      | none =>
        constructor
        · exact ⟨PyErr.typeError,
            by simp [construct_gpull_request_body, hc, hb, hdr, hdb, Except.bind]⟩
        · intro _ _ hdb2; exact absurd rfl hdb2
      | some dbranch =>
        cases hdc : bpull.destination.commit with
        | none =>
          constructor
          · exact ⟨PyErr.typeError,
              by simp [construct_gpull_request_body, hc, hb, hdr, hdb, hdc, Except.bind]⟩
          · intro _ _ _ hdc2; exact absurd rfl hdc2
        | some dcommit =>
          have hres : construct_gpull_request_body cfg dp cmap args bexport bpull =
              Except.error PyErr.unboundLocalError := by
            simp [construct_gpull_request_body, hc, hb, hdr, hdb, hdc, Except.bind]
          exact ⟨⟨PyErr.unboundLocalError, hres⟩, fun _ _ _ _ => hres⟩

/-- Claim C1 witness: with five configured issues but one fetched issue the
fixture run aborts with `AssertionError`; with the matching configured count
it does not abort. -/
theorem c1_witness :
    bitbucket_to_github cfgA dpA bexportA gimportA cmapA argsA =
      Except.error PyErr.assertionError ∧
    bitbucket_to_github cfgRun dpA bexportA gimportA cmapA argsA ≠
      Except.error PyErr.assertionError :=
  ⟨(c1_offset_gate cfgA dpA bexportA gimportA cmapA argsA).1 (by decide),
   (c1_offset_gate cfgRun dpA bexportA gimportA cmapA argsA).2 (by decide)⟩

/-- Claim C2 witness: the fixture run completes and assigns unified numbers
equal to the 1-based processing positions. -/
theorem c2_witness :
    ∃ r, bitbucket_to_github cfgRun dpA bexportA gimportA cmapA argsA = Except.ok r ∧
      ∀ (k : Nat) (hk : k < r.uploads.length), (r.uploads.get ⟨k, hk⟩).number = k + 1 := by
  refine ⟨runA, by decide, ?_⟩
  exact (@c2_unified_numbering cfgRun dpA bexportA gimportA cmapA argsA runA (by decide)
    (by
      intro i hi
      have h0 : i = 0 := by
        have h1 : i < 1 := by simpa [bexportA] using hi
        omega
      subst h0
      rfl)
    (by
      intro j hj
      have h0 : j = 0 := by
        have h1 : j < 1 := by simpa [bexportA] using hj
        omega
      subst h0
      rfl)).2.2.1

/-- Claim C3: the implicit issue-reference pass leaves bracketed text
unchanged (first conjunct, as the claim states), but it does NOT rewrite the
unbracketed shorthand `see issue #4` (second conjunct): the compiled pattern
`({names})?issue #(\d+)/i` contains a literal `/i` (a JavaScript-style flag
suffix inside the Python pattern string), so only text carrying a literal
`/i` right after the number is rewritten (third conjunct, which also shows
the default to the current repository). -/
theorem c3_implicit_issue_pass :
    replace_implicit_links_to_issues cfgA ("[issue #4 of X]") argsA = "[issue #4 of X]" ∧
    replace_implicit_links_to_issues cfgA ("see issue #4") argsA = "see issue #4" ∧
    replace_implicit_links_to_issues cfgA ("see issue #4/i") argsA =
      "see https://github.com/gh-org/current/issues/4" := by
  decide

/-- Claim C4: the implicit pull-request pass does not rewrite the unbracketed
shorthand `pull request #2` (the pattern demands a literal `/i`), and on the
text that does match, `pull request #2/i`, the callback raises `TypeError`
(`match.group(2)` is a `str` added to the `int` issue count) instead of
producing an `N + offset` link; bracketed text passes through unchanged. -/
theorem c4_implicit_pr_pass :
    replace_implicit_links_to_prs cfgA ("see pull request #2") argsA =
      Except.ok ("see pull request #2") ∧
    replace_implicit_links_to_prs cfgA ("see pull request #2/i") argsA =
      Except.error PyErr.typeError ∧
    replace_implicit_links_to_prs cfgA ("[pull request #2/i]") argsA =
      Except.ok ("[pull request #2/i]") := by
  decide

/-- Claim C5 counterexample: `map_content` is not stable under re-application.
On the body `@alice` the first application yields `@ignore_alice`, and
re-applying rewrites the mention again (the mention pass matches every
`@handle`, also already-rewritten ones, and `lookup_user` prefixes `ignore_`
unconditionally), so the composition differs from the single application. -/
theorem c5_counterexample :
    (map_content cfgA argsA ("@alice")).bind (fun t => map_content cfgA argsA t) ≠
      map_content cfgA argsA ("@alice") := by
  decide

/-- Claim C5 (amended): re-applying `map_content` leaves an already-rewritten
destination-form link unchanged, but an already-rewritten mention is
rewritten again, gaining one more `ignore_` prefix per application — so the
full rewriter is not stable under re-application on bodies containing
mentions. -/
theorem c5_amended :
    map_content cfgA argsA ("see https://github.com/gh-org/other/issues/4") =
      Except.ok ("see https://github.com/gh-org/other/issues/4") ∧
    map_content cfgA argsA ("@alice") = Except.ok ("@ignore_alice") ∧
    (map_content cfgA argsA ("@alice")).bind (fun t => map_content cfgA argsA t) =
      Except.ok ("@ignore_ignore_alice") := by
  decide

/-- Claim C6: for a body consisting of a prefix `p` (mention-free: no `@`,
ending in a non-word character or empty) followed by the mention `@h` of a
handle `h`, the mention pass rewrites the mention to `@` followed by
`lookup_user h` — `ignore_h` when `h` is unmapped, `ignore_` plus the mapped
name when mapped — and `lookup_user` always carries the `ignore_` prefix,
so no bare source-form mention survives the pass. -/
theorem c6_mention_pass_ignore_rewrite (cfg : Config) (p h : String)
    (hp_at : ∀ c ∈ p.data, c ≠ '@')
    (hp_last : ((p.data.getLast?).all fun c => !isWordChar c) = true)
    (hne : h.data ≠ [])
    (hall : ∀ c ∈ h.data, isHandleChar c = true) :
    replace_links_to_users cfg (p ++ "@" ++ h) = p ++ "@" ++ lookup_user cfg h ∧
    ∃ t, lookup_user cfg h = "ignore_" ++ t :=
  ⟨replace_links_to_users_single_mention cfg p h hp_at hp_last hne hall,
   lookup_user_has_ignore cfg h⟩

/-- Claim C6 witness: `see @alice` renders as `see @ignore_abot` when `alice`
maps to `abot`, and as `see @ignore_alice` when `alice` is unmapped. -/
theorem c6_witness :
    replace_links_to_users cfgMapped ("see " ++ "@" ++ "alice") = "see @ignore_abot" ∧
    replace_links_to_users cfgA ("see " ++ "@" ++ "alice") = "see @ignore_alice" := by
  constructor
  · exact ((c6_mention_pass_ignore_rewrite cfgMapped ("see ") ("alice")
      (by decide) (by decide) (by decide) (by decide)).1).trans (by decide)
  · exact ((c6_mention_pass_ignore_rewrite cfgA ("see ") ("alice")
      (by decide) (by decide) (by decide) (by decide)).1).trans (by decide)

/-- Claim C7 witness: against a destination populated at both unified numbers
the fixture run issues only update calls and no create call. -/
theorem c7_witness :
    ∃ r, bitbucket_to_github cfgRun dpA bexportA gimportPop cmapA argsA = Except.ok r ∧
      (∀ a ∈ r.uploads, a.action = ActionKind.update) ∧
      r.uploads.filter (fun a => a.action == ActionKind.create) = [] := by
  refine ⟨runPop, by decide, ?_⟩
  exact (@c7_reconciler_create_update cfgRun dpA bexportA gimportPop cmapA argsA runPop
    (by decide)).2 (by decide)

/-- Claim C8 witness: with drifted destination counts (5 + 0 against 1 + 1
source items) the fixture run still completes with an `ok` result and the
count error is reported. -/
theorem c8_witness :
    ∃ r, bitbucket_to_github cfgRun dpA bexportA gimportDrift cmapA argsA = Except.ok r ∧
      (r.count_error = true ↔
        bexportA.issues.length + bexportA.pulls.length ≠
          gimportDrift.issues_count + gimportDrift.pulls_count) :=
  c8_final_count_check cfgRun dpA bexportA gimportDrift cmapA argsA (by decide) ⟨_, rfl⟩

/-- Claim C9: with a source repository missing from both configuration maps,
diagnostic mode prints the `not configured in KNOWN_ISSUES_COUNT_MAPPING`
error and then raises `KeyError` at the unguarded subscript
`config.KNOWN_ISSUES_COUNT_MAPPING[brepo_full_name]` on the very next check,
so the check run does not continue past the inconsistency; with the
repository present in both maps the same check run finishes without a
raise. -/
theorem c9_check_keyerror_on_missing_config :
    (check cfg9 bexport9 gimport9).2 = some PyErr.keyError ∧
    ("Error: bitbucket repository \x27team/repo\x27 is not configured in KNOWN_ISSUES_COUNT_MAPPING.")
      ∈ (check cfg9 bexport9 gimport9).1 ∧
    (check cfg9ok bexport9 gimport9).2 = none := by
  decide

/-- Claim C10 witness: the fixture pull request whose source repository and
commit are both absent makes the body constructor raise `UnboundLocalError`. -/
theorem c10_witness :
    construct_gpull_request_body cfgA dpA cmapA argsA bexportA bpull10 =
      Except.error PyErr.unboundLocalError :=
  (c10_pull_body_unbound_source_ghash rfl rfl).2 (by decide) (by decide) (by decide) (by decide)

end Migration
